import Mathlib

/-!
Shallow embedding of the normalization engine of the `mylittletracker`
parcel-tracking package (src/mylittletracker), together with proofs about
the properties its specification states.

The embedding translates the Python sources:
  * `models.py`     - the unified data model (`ShipmentStatus`, `TrackingEvent`,
                      `Shipment`, `TrackingResponse`);
  * `utils.py`      - `parse_dt_iso`, `map_status_from_text`,
                      `normalize_language`, and the keyword signature of
                      `get_with_retries`;
  * `providers/ctt.py`, `providers/gls.py`, `providers/dhl.py`,
    `providers/correos.py`, `providers/dpd.py`, `providers/ecoscooting.py`
                    - the per-carrier normalize functions and small parsers;
  * `cli.py`        - `_fallback_response` and the error handling of `cmd_track`.

Python `datetime` values are modelled by a record of calendar fields plus an
optional UTC offset in minutes; the ordering used by `list.sort(key=...)` is
modelled by `dtKey`, the signed number of seconds since the civil epoch
(naive datetimes are compared field-lexicographically in CPython, which for
valid calendar dates coincides with comparing `dtKey`; aware datetimes are
compared as instants, which is `dtKey` as well).  Wall-clock reads
(`datetime.now()`) are threaded explicitly as a `now` parameter.  Fallible
Python code (HTTP calls, credential lookup) is modelled with `Except` and an
explicit network oracle parameter, and exceptions by the `PyExc` type.
-/

/-! ### Python string helpers -/

/-- Model of CPython `str.lower` restricted to the character repertoire the
carriers use: ASCII letters plus the Latin-1 accented letters appearing in
Spanish carrier texts.  Other characters are left unchanged. -/
def pyLowerChar (c : Char) : Char :=
  if 'A' ≤ c ∧ c ≤ 'Z' then Char.ofNat (c.toNat + 32)
  else if c = 'Á' then 'á' else if c = 'É' then 'é' else if c = 'Í' then 'í'
  else if c = 'Ó' then 'ó' else if c = 'Ú' then 'ú' else if c = 'Ñ' then 'ñ'
  else if c = 'Ü' then 'ü' else c

/-- Model of CPython `str.upper` on the same repertoire. -/
def pyUpperChar (c : Char) : Char :=
  if 'a' ≤ c ∧ c ≤ 'z' then Char.ofNat (c.toNat - 32)
  else if c = 'á' then 'Á' else if c = 'é' then 'É' else if c = 'í' then 'Í'
  else if c = 'ó' then 'Ó' else if c = 'ú' then 'Ú' else if c = 'ñ' then 'Ñ'
  else if c = 'ü' then 'Ü' else c

def pyLower (s : String) : String := ⟨s.toList.map pyLowerChar⟩

def pyUpper (s : String) : String := ⟨s.toList.map pyUpperChar⟩

/-- Whitespace characters stripped by `str.strip()`. -/
def isPySpace (c : Char) : Bool := c = ' ' ∨ c = '\t' ∨ c = '\n' ∨ c = '\r'

def dropLeading (l : List Char) : List Char := l.dropWhile isPySpace

/-- Model of `str.strip()` (strip leading and trailing whitespace). -/
def pyStrip (s : String) : String :=
  ⟨(dropLeading ((dropLeading s.toList.reverse).reverse))⟩

/-- Leading-match test: does the second list start with the first? -/
def leadsWith : List Char → List Char → Bool
  | [], _ => true
  | _ :: _, [] => false
  | a :: as, b :: bs => (a == b) && leadsWith as bs

/-- Model of Python's substring operator `needle in hay` on character lists. -/
def hasSub (hay needle : List Char) : Bool :=
  if leadsWith needle hay then true
  else match hay with
    | [] => false
    | _ :: t => hasSub t needle

/-- Model of Python's `needle in hay` on strings. -/
def containsS (hay needle : String) : Bool := hasSub hay.toList needle.toList

theorem leadsWith_iff (n h : List Char) :
    leadsWith n h = true ↔ ∃ suf, h = n ++ suf := by
  induction n generalizing h with
  | nil => simp [leadsWith]
  | cons a as ih =>
    cases h with
    | nil => simp [leadsWith]
    | cons b bs =>
      simp only [leadsWith, Bool.and_eq_true, beq_iff_eq, ih, List.cons_append,
        List.cons.injEq]
      constructor
      · rintro ⟨rfl, suf, rfl⟩; exact ⟨suf, rfl, rfl⟩
      · rintro ⟨suf, rfl, rfl⟩; exact ⟨rfl, suf, rfl⟩

theorem hasSub_iff (h n : List Char) :
    hasSub h n = true ↔ ∃ pre suf, h = pre ++ n ++ suf := by
  induction h with
  | nil =>
    cases n with
    | nil => exact ⟨fun _ => ⟨[], [], rfl⟩, fun _ => rfl⟩
    | cons a as =>
      constructor
      · intro hh; simp [hasSub, leadsWith] at hh
      · rintro ⟨pre, suf, hps⟩
        exact absurd (congrArg List.length hps) (by simp; omega)
  | cons a t ih =>
    rw [hasSub]
    constructor
    · intro hh
      split at hh
      · next hl =>
        obtain ⟨suf, hs⟩ := (leadsWith_iff n (a :: t)).mp hl
        exact ⟨[], suf, by simpa using hs⟩
      · obtain ⟨pre, suf, hps⟩ := ih.mp hh
        exact ⟨a :: pre, suf, by simp [hps]⟩
    · rintro ⟨pre, suf, hps⟩
      split
      · rfl
      · next hl =>
        cases pre with
        | nil =>
          exact absurd ((leadsWith_iff n (a :: t)).mpr ⟨suf, by simpa using hps⟩)
            (by simp [hl])
        | cons p ps =>
          injection hps with h1 h2
          exact ih.mpr ⟨ps, suf, h2⟩

theorem containsS_iff (h n : String) :
    containsS h n = true ↔ ∃ pre suf, h.toList = pre ++ n.toList ++ suf := by
  exact hasSub_iff h.toList n.toList

theorem containsS_append_right (a b n : String) (hb : containsS b n = true) :
    containsS (a ++ b) n = true := by
  obtain ⟨pre, suf, hps⟩ := (containsS_iff b n).mp hb
  simp only [String.toList] at hps
  exact (containsS_iff (a ++ b) n).mpr
    ⟨a.toList ++ pre, suf, by simp [String.toList, hps, List.append_assoc]⟩

theorem containsS_append_left (a b n : String) (ha : containsS a n = true) :
    containsS (a ++ b) n = true := by
  obtain ⟨pre, suf, hps⟩ := (containsS_iff a n).mp ha
  simp only [String.toList] at hps
  exact (containsS_iff (a ++ b) n).mpr
    ⟨pre, suf ++ b.toList, by simp [String.toList, hps, List.append_assoc]⟩

theorem containsS_self (s : String) : containsS s s = true :=
  (containsS_iff s s).mpr ⟨[], [], by simp⟩

theorem containsS_trans (a b c : String) (h1 : containsS b a = true)
    (h2 : containsS c b = true) : containsS c a = true := by
  obtain ⟨p1, s1, hb⟩ := (containsS_iff b a).mp h1
  obtain ⟨p2, s2, hc⟩ := (containsS_iff c b).mp h2
  simp only [String.toList] at hb hc
  refine (containsS_iff c a).mpr ⟨p2 ++ p1, s1 ++ s2, ?_⟩
  simp [String.toList, hc, hb, List.append_assoc]

/-! ### Python truthiness and `or` chains on optional strings -/

/-- A Python value `None` or `""` is falsy; `pyTruthy` keeps a string option
only when it is truthy (mirrors `x or y` chains over `Optional[str]`). -/
def pyTruthy : Option String → Option String
  | none => none
  | some s => if s = "" then none else some s

/-- Model of the Python expression `a or b` on optional strings. -/
def pyOrO (a b : Option String) : Option String :=
  match pyTruthy a with
  | some s => some s
  | none => b

/-- Model of `a or b` where the overall result is used as a string
(the right operand is a string default). -/
def pyOrD (a : Option String) (b : String) : String :=
  match pyTruthy a with
  | some s => s
  | none => b

/-- Model of `str.join` on a list: `pyJoin sep l` is `sep.join(l)`. -/
def pyJoin (sep : String) : List String → String
  | [] => ""
  | [x] => x
  | x :: y :: rest => x ++ sep ++ pyJoin sep (y :: rest)

theorem containsS_pyJoin_of_mem (sep x : String) (l : List String) (hx : x ∈ l) :
    containsS (pyJoin sep l) x = true := by
  induction l with
  | nil => cases hx
  | cons a rest ih =>
    cases rest with
    | nil =>
      have hx' : x = a := by simpa using hx
      subst hx'; exact containsS_self x
    | cons b r2 =>
      rw [pyJoin]
      rcases List.mem_cons.mp hx with h | h
      · subst h
        exact containsS_append_left _ _ _ (containsS_append_left _ _ _ (containsS_self x))
      · exact containsS_append_right _ _ _ (ih h)

/-! ### Python datetime model -/

/-- Model of a Python `datetime.datetime`: calendar fields plus an optional
timezone offset in minutes (`none` models a naive datetime). -/
structure PyDateTime where
  year : Nat
  month : Nat
  day : Nat
  hour : Nat
  minute : Nat
  second : Nat
  tzMin : Option Int
deriving DecidableEq, Repr

/-- Days from the civil epoch 1970-01-01 (Howard Hinnant's `days_from_civil`
algorithm, as used to model CPython's calendar ordering). -/
def daysFromCivil (y : Int) (m d : Nat) : Int :=
  let yy : Int := if m ≤ 2 then y - 1 else y
  let era : Int := (if 0 ≤ yy then yy else yy - 399) / 400
  let yoe : Int := yy - era * 400
  let mp : Int := (Int.ofNat m + 9) % 12
  let doy : Int := (153 * mp + 2) / 5 + Int.ofNat d - 1
  let doe : Int := yoe * 365 + yoe / 4 - yoe / 100 + doy
  era * 146097 + doe - 719468

/-- Comparison key for datetimes: seconds since the civil epoch, offset
applied when the datetime is timezone-aware.  For valid calendar dates this
orders naive datetimes exactly as CPython's field-lexicographic comparison
does, and aware datetimes as instants. -/
def dtKey (dt : PyDateTime) : Int :=
  daysFromCivil (Int.ofNat dt.year) dt.month dt.day * 86400
    + Int.ofNat dt.hour * 3600 + Int.ofNat dt.minute * 60 + Int.ofNat dt.second
    - (dt.tzMin.getD 0) * 60

def isLeapYear (y : Nat) : Bool :=
  y % 4 == 0 && (y % 100 != 0 || y % 400 == 0)

def daysInMonth (y m : Nat) : Nat :=
  if m = 2 then (if isLeapYear y then 29 else 28)
  else if m = 4 ∨ m = 6 ∨ m = 9 ∨ m = 11 then 30
  else 31

/-- Validity check CPython's datetime constructor performs on parsed fields. -/
def validDT (y m d h mi s : Nat) : Bool :=
  1 ≤ y && 1 ≤ m && m ≤ 12 && 1 ≤ d && d ≤ daysInMonth y m
    && h ≤ 23 && mi ≤ 59 && s ≤ 59

/-! ### Stable sort (model of CPython `list.sort(key=...)`) -/

/-- Insert into a sorted list, before the first element not `le`-below the
inserted one.  With a non-strict `le` this is the stable insertion. -/
def insertLe {α : Type} (le : α → α → Bool) (a : α) : List α → List α
  | [] => [a]
  | b :: l => if le a b then a :: b :: l else b :: insertLe le a l

/-- Stable insertion sort; CPython's `list.sort` is stable, and all stable
sorts by the same key agree, so this models `events.sort(key=...)`. -/
def sortLe {α : Type} (le : α → α → Bool) : List α → List α
  | [] => []
  | a :: l => insertLe le a (sortLe le l)

theorem length_insertLe {α : Type} (le : α → α → Bool) (a : α) (l : List α) :
    (insertLe le a l).length = l.length + 1 := by
  induction l with
  | nil => rfl
  | cons b t ih =>
    rw [insertLe]
    split
    · simp
    · simp [ih]

theorem length_sortLe {α : Type} (le : α → α → Bool) (l : List α) :
    (sortLe le l).length = l.length := by
  induction l with
  | nil => rfl
  | cons a t ih => rw [sortLe, length_insertLe, ih, List.length_cons]

theorem mem_insertLe {α : Type} (le : α → α → Bool) (a x : α) (l : List α) :
    x ∈ insertLe le a l ↔ x = a ∨ x ∈ l := by
  induction l with
  | nil => simp [insertLe]
  | cons b t ih =>
    rw [insertLe]
    split
    · simp
    · simp [ih]
      tauto

theorem pairwise_insertLe {α : Type} (le : α → α → Bool)
    (letrans : ∀ x y z, le x y = true → le y z = true → le x z = true)
    (total : ∀ x y, le x y = true ∨ le y x = true) (a : α) (l : List α)
    (hl : List.Pairwise (fun x y => le x y = true) l) :
    List.Pairwise (fun x y => le x y = true) (insertLe le a l) := by
  induction l with
  | nil => simp [insertLe]
  | cons b t ih =>
    rw [insertLe]
    rcases List.pairwise_cons.mp hl with ⟨hb, ht⟩
    split
    · next hab =>
      refine List.pairwise_cons.mpr ⟨?_, hl⟩
      intro x hx
      rcases List.mem_cons.mp hx with rfl | hx
      · exact hab
      · exact letrans a b x hab (hb x hx)
    · next hab =>
      have hba : le b a = true := (total a b).resolve_left (by simpa using hab)
      refine List.pairwise_cons.mpr ⟨?_, ih ht⟩
      intro x hx
      rcases (mem_insertLe le a x t).mp hx with rfl | hx
      · exact hba
      · exact hb x hx

theorem pairwise_sortLe {α : Type} (le : α → α → Bool)
    (letrans : ∀ x y z, le x y = true → le y z = true → le x z = true)
    (total : ∀ x y, le x y = true ∨ le y x = true) (l : List α) :
    List.Pairwise (fun x y => le x y = true) (sortLe le l) := by
  induction l with
  | nil => exact List.Pairwise.nil
  | cons a t ih => exact pairwise_insertLe le letrans total a (sortLe le t) ih

/-! ### Digit reading helpers for the datetime parsers -/

def digitVal (c : Char) : Nat := c.toNat - 48

/-- Read exactly `n` decimal digits, returning the value and the rest. -/
def readFix : Nat → Nat → List Char → Option (Nat × List Char)
  | 0, acc, l => some (acc, l)
  | n + 1, acc, c :: l =>
    if c.isDigit then readFix n (acc * 10 + digitVal c) l else none
  | _ + 1, _, [] => none

/-- Read one or two decimal digits (models the `\d\d|\d`-style alternatives in
CPython's `_strptime` field regexes; out-of-range values are rejected later by
the datetime constructor check `validDT`, as in CPython). -/
def read1or2 : List Char → Option (Nat × List Char)
  | a :: b :: rest =>
    if a.isDigit then
      if b.isDigit then some (digitVal a * 10 + digitVal b, rest)
      else some (digitVal a, b :: rest)
    else none
  | [a] => if a.isDigit then some (digitVal a, []) else none
  | [] => none

def expectC (c : Char) : List Char → Option (List Char)
  | x :: rest => if x = c then some rest else none
  | [] => none

/-! ### Model of `datetime.fromisoformat` (pre-3.11 dialect)

`parse_dt_iso` pre-processes its input (trailing `Z`, colon-less offsets)
precisely because `datetime.fromisoformat` only accepts the strict
`YYYY-MM-DD[<sep>HH[:MM[:SS]][±HH:MM]]` shapes; the model implements that
dialect (without fractional seconds, which no carrier in this code emits). -/

def isoReadOffset (l : List Char) : Option (Option Int × List Char) :=
  match l with
  | [] => some (none, [])
  | c :: rest =>
    if c = '+' ∨ c = '-' then
      match readFix 2 0 rest with
      | none => none
      | some (hh, r1) =>
        match expectC ':' r1 with
        | none => none
        | some r2 =>
          match readFix 2 0 r2 with
          | none => none
          | some (mm, r3) =>
            if hh ≤ 23 ∧ mm ≤ 59 then
              some (some ((if c = '-' then -1 else 1) * (Int.ofNat (hh * 60 + mm))), r3)
            else none
    else none

def isoReadTime (l : List Char) : Option (Nat × Nat × Nat × List Char) :=
  match readFix 2 0 l with
  | none => none
  | some (h, r1) =>
    match expectC ':' r1 with
    | none => some (h, 0, 0, r1)
    | some r2 =>
      match readFix 2 0 r2 with
      | none => none
      | some (mi, r3) =>
        match expectC ':' r3 with
        | none => some (h, mi, 0, r3)
        | some r4 =>
          match readFix 2 0 r4 with
          | none => none
          | some (s, r5) => some (h, mi, s, r5)

def pyFromIsoChars (l : List Char) : Option PyDateTime :=
  match readFix 4 0 l with
  | none => none
  | some (y, l1) =>
    match expectC '-' l1 with
    | none => none
    | some l2 =>
      match readFix 2 0 l2 with
      | none => none
      | some (m, l3) =>
        match expectC '-' l3 with
        | none => none
        | some l4 =>
          match readFix 2 0 l4 with
          | none => none
          | some (d, l5) =>
            match l5 with
            | [] => if validDT y m d 0 0 0 then some ⟨y, m, d, 0, 0, 0, none⟩ else none
            | _sep :: l6 =>
              match isoReadTime l6 with
              | none => none
              | some (h, mi, s, l7) =>
                match isoReadOffset l7 with
                | none => none
                | some (tz, l8) =>
                  if l8 = [] ∧ validDT y m d h mi s then
                    some ⟨y, m, d, h, mi, s, tz⟩
                  else none

/-! ### Models of the `datetime.strptime` fallback formats of `parse_dt_iso` -/

/-- Model of the `%z` field: `±HHMM`, `±HH:MM` or `Z` (CPython accepts all
three); the resulting offset must be less than a day in magnitude. -/
def strpReadZ (l : List Char) : Option (Int × List Char) :=
  match l with
  | 'Z' :: rest => some (0, rest)
  | c :: rest =>
    if c = '+' ∨ c = '-' then
      match readFix 2 0 rest with
      | none => none
      | some (hh, r1) =>
        let r1' := match expectC ':' r1 with
          | some r => r
          | none => r1
        match readFix 2 0 r1' with
        | none => none
        | some (mm, r2) =>
          if hh * 60 + mm < 1440 then
            some ((if c = '-' then -1 else 1) * (Int.ofNat (hh * 60 + mm)), r2)
          else none
    else none
  | [] => none

/-- Shared date-time part `%Y-%m-%dT%H:%M:%S` of the strptime fallbacks. -/
def strpYmdHMSCore (l : List Char) : Option (Nat × Nat × Nat × Nat × Nat × Nat × List Char) :=
  match readFix 4 0 l with
  | none => none
  | some (y, l1) =>
    match expectC '-' l1 with
    | none => none
    | some l2 =>
      match read1or2 l2 with
      | none => none
      | some (m, l3) =>
        match expectC '-' l3 with
        | none => none
        | some l4 =>
          match read1or2 l4 with
          | none => none
          | some (d, l5) =>
            match expectC 'T' l5 with
            | none => none
            | some l6 =>
              match read1or2 l6 with
              | none => none
              | some (h, l7) =>
                match expectC ':' l7 with
                | none => none
                | some l8 =>
                  match read1or2 l8 with
                  | none => none
                  | some (mi, l9) =>
                    match expectC ':' l9 with
                    | none => none
                    | some l10 =>
                      match read1or2 l10 with
                      | none => none
                      | some (s, l11) => some (y, m, d, h, mi, s, l11)

/-- Model of `datetime.strptime(s, "%Y-%m-%dT%H:%M:%S%z")`. -/
def strptimeYmdHMSz (s : String) : Option PyDateTime :=
  match strpYmdHMSCore s.toList with
  | none => none
  | some (y, m, d, h, mi, sec, rest) =>
    match strpReadZ rest with
    | none => none
    | some (tz, r2) =>
      if r2 = [] ∧ validDT y m d h mi sec then some ⟨y, m, d, h, mi, sec, some tz⟩
      else none

/-- Model of `datetime.strptime(s, "%Y-%m-%dT%H:%M:%S")`. -/
def strptimeYmdHMS (s : String) : Option PyDateTime :=
  match strpYmdHMSCore s.toList with
  | none => none
  | some (y, m, d, h, mi, sec, rest) =>
    if rest = [] ∧ validDT y m d h mi sec then some ⟨y, m, d, h, mi, sec, none⟩
    else none

/-- Model of `datetime.strptime(s, "%Y-%m-%d")`. -/
def strptimeYmd (s : String) : Option PyDateTime :=
  match readFix 4 0 s.toList with
  | none => none
  | some (y, l1) =>
    match expectC '-' l1 with
    | none => none
    | some l2 =>
      match read1or2 l2 with
      | none => none
      | some (m, l3) =>
        match expectC '-' l3 with
        | none => none
        | some l4 =>
          match read1or2 l4 with
          | none => none
          | some (d, l5) =>
            if l5 = [] ∧ validDT y m d 0 0 0 then some ⟨y, m, d, 0, 0, 0, none⟩
            else none

/-! ### `utils.parse_dt_iso` -/

/-- Model of `utils.parse_dt_iso`: robust ISO parser.  Strips the input,
replaces a trailing `Z` with `+00:00`, inserts a missing colon into a
trailing `±HHMM` offset, tries `fromisoformat`, then falls back to the three
explicit strptime formats applied to the original (unstripped) string, and
returns `none` when everything fails.  Total by construction, mirroring the
`try/except` blanket of the source. -/
def parse_dt_iso (s : Option String) : Option PyDateTime :=
  match pyTruthy s with
  | none => none
  | some s0 =>
    let tl := (pyStrip s0).toList
    let tl1 := if tl.getLast? = some 'Z' then tl.dropLast ++ "+00:00".toList else tl
    let r := tl1.reverse
    let tl2 :=
      if 5 ≤ tl1.length ∧ (r.get? 4 = some '+' ∨ r.get? 4 = some '-')
          ∧ r.get? 2 ≠ some ':' then
        tl1.take (tl1.length - 2) ++ [':'] ++ tl1.drop (tl1.length - 2)
      else tl1
    match pyFromIsoChars tl2 with
    | some dt => some dt
    | none =>
      match strptimeYmdHMSz s0 with
      | some dt => some dt
      | none =>
        match strptimeYmdHMS s0 with
        | some dt => some dt
        | none => strptimeYmd s0

/-! ### The unified data model (`models.py`) -/

/-- Model of `models.ShipmentStatus`. -/
inductive ShipmentStatus where
  | unknown
  | information_received
  | in_transit
  | out_for_delivery
  | available_for_pickup
  | delivered
  | exception
  | returned
  | cancelled
deriving DecidableEq, Repr

/-- Carrier-specific metadata value stored in `extras` dictionaries (the
shapes this code writes: strings and flat string-valued sub-dictionaries). -/
inductive PyVal where
  | str (s : String)
  | dict (fields : List (String × Option String))
deriving Repr

/-- Model of `models.TrackingEvent`. -/
structure TrackingEvent where
  timestamp : PyDateTime
  status : String
  location : Option String := none
  details : Option String := none
  status_code : Option String := none
  extras : Option (List (String × Option PyVal)) := none
deriving Repr

/-- Model of `models.Shipment`. -/
structure Shipment where
  tracking_number : String
  carrier : String
  status : ShipmentStatus
  events : List TrackingEvent
  service_type : Option String := none
  origin : Option String := none
  destination : Option String := none
  estimated_delivery : Option PyDateTime := none
  actual_delivery : Option PyDateTime := none
  extras : Option (List (String × Option PyVal)) := none
deriving Repr

/-- Model of `models.TrackingResponse`; `query_timestamp` is the `now` at
construction (`default_factory=datetime.now`). -/
structure TrackingResponse where
  shipments : List Shipment
  provider : String
  query_timestamp : PyDateTime
deriving Repr

/-- Model of the `has_shipments` property. -/
def TrackingResponse.has_shipments (r : TrackingResponse) : Bool :=
  0 < r.shipments.length

/-- Ordering used by every `events.sort(key=lambda e: e.timestamp)` call. -/
def evLe (a b : TrackingEvent) : Bool := decide (dtKey a.timestamp ≤ dtKey b.timestamp)

/-- Model of `events.sort(key=lambda e: e.timestamp)` (stable sort by key). -/
def sortEvents (l : List TrackingEvent) : List TrackingEvent := sortLe evLe l

theorem sortEvents_pairwise (l : List TrackingEvent) :
    List.Pairwise (fun a b => dtKey a.timestamp ≤ dtKey b.timestamp) (sortEvents l) := by
  have h := pairwise_sortLe evLe
    (fun x y z hxy hyz => by
      simp only [evLe, decide_eq_true_eq] at *
      omega)
    (fun x y => by
      simp only [evLe, decide_eq_true_eq]
      omega)
    l
  exact h.imp (fun hxy => by simpa [evLe] using hxy)

theorem sortEvents_length (l : List TrackingEvent) :
    (sortEvents l).length = l.length := length_sortLe evLe l

/-! ### `utils.map_status_from_text` (free-text Status Classifier) -/

/-- Model of `utils.map_status_from_text`: keyword matching over the
lowercased text.  Note the source lowercases but does not strip accents. -/
def map_status_from_text (text : Option String) : ShipmentStatus :=
  match pyTruthy text with
  | none => ShipmentStatus.unknown
  | some txt =>
    let t := pyLower txt
    if containsS t "available for pickup" || containsS t "ready for pickup"
        || containsS t "disponible para recoger" || containsS t "para recoger"
        || containsS t "pickup point" || containsS t "collection point" then
      ShipmentStatus.available_for_pickup
    else if containsS t "delivered" || containsS t "entregado" then
      ShipmentStatus.delivered
    else if containsS t "out for delivery" || containsS t "in delivery"
        || containsS t "reparto" then
      ShipmentStatus.out_for_delivery
    else if containsS t "in transit" || containsS t "transit" || containsS t "depot"
        || containsS t "sorted" || containsS t "on the way" then
      ShipmentStatus.in_transit
    else if containsS t "pickup" || containsS t "accepted" || containsS t "admitido"
        || containsS t "pre-registered" || containsS t "pre registered" then
      ShipmentStatus.information_received
    else if containsS t "exception" || containsS t "failed"
        || containsS t "undeliverable" then
      ShipmentStatus.exception
    else ShipmentStatus.unknown

/-! ### `utils.normalize_language` (Language/Locale Resolver) -/

/-- Environment model: `os.getenv`. -/
def Env : Type := String → Option String

def pyReplaceDash (s : String) : String :=
  ⟨s.toList.map (fun c => if c = '-' then '_' else c)⟩

/-- First component of `s.split(sep, 1)`. -/
def pySplitFirst (sep : Char) (s : String) : String :=
  ⟨s.toList.takeWhile (· ≠ sep)⟩

/-- Python slice `s[a:b]`. -/
def pySlice (a b : Nat) (s : String) : String :=
  ⟨(s.toList.drop a).take (b - a)⟩

/-- Canonical two-letter languages `utils.normalize_language` supports. -/
def allowedLangs : List String := ["en", "es", "de", "fr", "it", "nl"]

/-- Loop body of `_detect_default_lang`: what one environment candidate
contributes (`None` models `continue`). -/
def detectPick (val : Option String) : Option String :=
  match pyTruthy val with
  | none => none
  | some v0 =>
    match pyTruthy (some (pyStrip v0)) with
    | none => none
    | some v =>
      let v2 := pyReplaceDash v
      let lang2 := pyLower (pySplitFirst '.' (pySplitFirst '_' v2))
      if lang2 ∈ allowedLangs then some lang2 else none

/-- Model of `_detect_default_lang` inside `utils.normalize_language`:
first environment candidate whose leading language token is supported,
else `"en"`. -/
def detectDefaultLang (env : Env) : String :=
  let cands := [env "MLT_DEFAULT_LANGUAGE", env "MYLITTLETRACKER_DEFAULT_LANGUAGE",
    env "LANG", env "LC_ALL"]
  match cands.findSome? detectPick with
  | some l => l
  | none => "en"

/-- Model of the inner `split_lang` helper of `utils.normalize_language`. -/
def splitLang (s : String) : String × Option String :=
  let s2 := pyReplaceDash s
  if containsS s2 "_" ∧ 5 ≤ s2.toList.length then
    (pyLower (pySlice 0 2 s2), some (pyUpper (pySlice 3 5 s2)))
  else (pyLower (pySlice 0 2 s2), none)

/-- The DPD locale mapping table inside `utils.normalize_language`. -/
def dpdLangMapGet : String → Option String
  | "en" => some "en_US"
  | "nl" => some "nl_NL"
  | "de" => some "de_DE"
  | "fr" => some "fr_FR"
  | "it" => some "it_IT"
  | "es" => some "es_ES"
  | _ => none

def dpdLangMapValues : List String :=
  ["en_US", "nl_NL", "de_DE", "fr_FR", "it_IT", "es_ES"]

/-- Model of `utils.normalize_language(language, provider)`.  The process
environment is passed explicitly.  A CPython `KeyError` on
`mapping[default_two_letter]` is modelled by a sentinel string; the lemma
`dpdLangMapGet_detect_isSome` shows that lookup can never miss, which is the
"never raises" content of the resolver contract. -/
def normalize_language (env : Env) (language : Option String)
    (provider : Option String) : String × Option String :=
  let default_two_letter := detectDefaultLang env
  let lang := pyStrip (pyOrD language default_two_letter)
  let prov := pyLower ((provider).getD "")
  if prov = "dpd" then
    let (l, r) := splitLang lang
    let normal0 : Option String :=
      match r with
      | some rr =>
        let candidate := l ++ "_" ++ rr
        if candidate ∈ dpdLangMapValues then some candidate else none
      | none => none
    let normal : String :=
      match normal0 with
      | some v => v
      | none =>
        if l ∈ allowedLangs then (dpdLangMapGet l).getD "<KeyError>"
        else (dpdLangMapGet default_two_letter).getD "<KeyError>"
    (normal, if pyLower normal ≠ pyLower lang then some lang else none)
  else if prov = "gls" then
    let (l, _) := splitLang lang
    let normal := pyUpper (if l ∈ allowedLangs then l else default_two_letter)
    (normal, if normal ≠ lang then some lang else none)
  else if prov = "dhl" then
    let (l, _) := splitLang lang
    let normal := pyLower (if l ∈ allowedLangs then l else default_two_letter)
    (normal, if normal ≠ lang then some lang else none)
  else
    let (l, _) := splitLang lang
    let normal := pyUpper (if l ∈ allowedLangs then l else default_two_letter)
    (normal, if normal ≠ lang then some lang else none)

theorem detectPick_mem (val : Option String) (l : String)
    (h : detectPick val = some l) : l ∈ allowedLangs := by
  unfold detectPick at h
  cases h0 : pyTruthy val with
  | none => rw [h0] at h; cases h
  | some v0 =>
    rw [h0] at h
    simp only at h
    cases h1 : pyTruthy (some (pyStrip v0)) with
    | none => rw [h1] at h; cases h
    | some v =>
      rw [h1] at h
      simp only at h
      split at h
      · next hmem => injection h with h; subst h; exact hmem
      · cases h

theorem detectDefaultLang_mem (env : Env) : detectDefaultLang env ∈ allowedLangs := by
  unfold detectDefaultLang
  cases hf : List.findSome? detectPick [env "MLT_DEFAULT_LANGUAGE",
      env "MYLITTLETRACKER_DEFAULT_LANGUAGE", env "LANG", env "LC_ALL"] with
  | none => simp [hf, allowedLangs]
  | some l =>
    obtain ⟨a, _, ha⟩ := List.exists_of_findSome?_eq_some hf
    simpa [hf] using detectPick_mem a l ha

theorem dpdLangMapGet_detect_isSome (env : Env) :
    (dpdLangMapGet (detectDefaultLang env)).isSome = true := by
  have h := detectDefaultLang_mem env
  simp only [allowedLangs, List.mem_cons, List.not_mem_nil, or_false] at h
  rcases h with h | h | h | h | h | h <;> rw [h] <;> rfl

/-! ### `dpd._resolve_locale` -/

def dpdSupportedLocales : List String :=
  ["en_US", "de_DE", "fr_FR", "es_ES", "it_IT", "nl_NL", "pl_PL", "cs_CZ"]

def dpdLangToLocale : String → Option String
  | "en" => some "en_US"
  | "de" => some "de_DE"
  | "fr" => some "fr_FR"
  | "es" => some "es_ES"
  | "it" => some "it_IT"
  | "nl" => some "nl_NL"
  | "pl" => some "pl_PL"
  | "cs" => some "cs_CZ"
  | _ => none

/-- Model of `dpd._resolve_locale`: resolve an input language or locale to a
supported PLC locale, falling back to `en_US`. -/
def dpdResolveLocale (lang_code : String) : String × Option String :=
  match pyTruthy (some lang_code) with
  | none => ("en_US", none)
  | some lc0 =>
    let code := pyStrip lc0
    let c := pyReplaceDash code
    if c.toList.length = 5 ∧ c.toList.get? 2 = some '_' then
      let lang := pyLower (pySlice 0 2 c)
      let region := pyUpper (pySlice 3 5 c)
      let loc := lang ++ "_" ++ region
      if loc ∈ dpdSupportedLocales then (loc, none)
      else
        match dpdLangToLocale lang with
        | some v => (v, some code)
        | none => ("en_US", some code)
    else
      let lc := pyLower c
      match dpdLangToLocale lc with
      | some v => (v, none)
      | none => ("en_US", some code)

/-! ### CTT adapter (`providers/ctt.py`) -/

/-- Characters stripped of their accent by `_norm` in `ctt.py`
(NFD-decompose then drop combining marks), on the lowercase Latin letters the
CTT payloads contain. -/
def stripAccentChar (c : Char) : Char :=
  if c = 'á' ∨ c = 'à' then 'a' else if c = 'é' ∨ c = 'è' then 'e'
  else if c = 'í' ∨ c = 'ì' then 'i' else if c = 'ó' ∨ c = 'ò' then 'o'
  else if c = 'ú' ∨ c = 'ù' ∨ c = 'ü' then 'u' else if c = 'ñ' then 'n' else c

/-- Model of `ctt._norm`: lowercase then remove accents. -/
def cttNorm (t : String) : String :=
  ⟨(pyLower t).toList.map stripAccentChar⟩

/-- The `detail` sub-object of a raw CTT event. -/
structure CttDetail where
  item_event_datetime : Option String := none
  item_event_text : Option String := none
  External_event_text : Option String := none
  event_courier_code : Option String := none
deriving Repr

/-- One raw CTT shipping-history event. -/
structure CttRawEvent where
  event_date : Option String := none
  detail : Option CttDetail := none
  description : Option String := none
  type : Option String := none
  code : Option String := none
deriving Repr

/-- The `data` object of a raw CTT payload (the fields `normalize_ctt_response`
reads; `none` models an absent key).  Fields that are only copied verbatim
into `extras` are kept as opaque `PyVal`s. -/
structure CttData where
  events : List CttRawEvent := []
  origin_name : Option String := none
  origin_province_name : Option String := none
  destin_name : Option String := none
  destin_province_name : Option String := none
  committed_delivery_datetime : Option String := none
  reported_delivery_date : Option String := none
  delivery_date : Option String := none
  shipping_code : Option String := none
  client_reference : Option PyVal := none
  declared_weight : Option PyVal := none
  final_weight : Option PyVal := none
  shipping_type_code : Option PyVal := none
  client_center_code : Option PyVal := none
  client_code : Option PyVal := none
  item_count : Option PyVal := none
  traffic_type_code : Option PyVal := none
  has_custom : Option PyVal := none
deriving Repr

/-- Raw CTT payload: `data = (raw or {}).get("data") or {}`; `none` models a
missing, `None` or empty (falsy) `data` object.  The `events` list stands for
`(data.get("shipping_history") or {}).get("events") or []`. -/
structure CttRaw where
  data : Option CttData := none
deriving Repr

/-- Guard of the `details` fallback loop in `normalize_ctt_response`:
`isinstance(v, str) and v.lower() != "null" and v.strip()`. -/
def cttPickDetail (v : Option String) : Option String :=
  match v with
  | some s => if pyLower s ≠ "null" ∧ pyStrip s ≠ "" then some s else none
  | none => none

def cttDetailFields (d : CttDetail) : PyVal :=
  PyVal.dict [("item_event_datetime", d.item_event_datetime),
    ("item_event_text", d.item_event_text),
    ("External_event_text", d.External_event_text),
    ("event_courier_code", d.event_courier_code)]

/-- Event transform of `normalize_ctt_response` (the body of its `for` loop). -/
def cttEventOf (now : PyDateTime) (ev : CttRawEvent) : TrackingEvent :=
  let dt_str := pyOrO ((ev.detail.getD {}).item_event_datetime) ev.event_date
  let ts := (parse_dt_iso dt_str).getD now
  let desc := pyOrD ev.description (pyOrD ev.type "")
  let det := ev.detail.getD {}
  let details := [det.item_event_text, det.External_event_text,
    det.event_courier_code].findSome? cttPickDetail
  { timestamp := ts
    status := desc
    details := details
    status_code := ev.code
    extras := some [("type", ev.type.map PyVal.str),
      ("raw_detail", ev.detail.map cttDetailFields)] }

/-- Model of `ctt._infer_ctt_status`: explicit code table on the latest event,
then accent-stripped Spanish phrases, then the generic text mapper. -/
def inferCttStatus (events : List TrackingEvent) : ShipmentStatus :=
  match events.getLast? with
  | none => ShipmentStatus.unknown
  | some latest =>
    let text := latest.status
    let code := pyStrip (latest.status_code.getD "")
    if code = "0000" then ShipmentStatus.information_received
    else if code = "1000" then ShipmentStatus.in_transit
    else if code = "1500" then ShipmentStatus.out_for_delivery
    else if code = "2310" then ShipmentStatus.available_for_pickup
    else
      let t := cttNorm text
      if containsS t "entregado" || containsS t "entrega realizada" then
        ShipmentStatus.delivered
      else if containsS t "entrega hoy" || containsS t "en reparto"
          || containsS t "reparto" || containsS t "delivery today" then
        ShipmentStatus.out_for_delivery
      else if containsS t "disponible para recoger" || containsS t "para recoger"
          || containsS t "punto de recogida" then
        ShipmentStatus.available_for_pickup
      else if containsS t "transito" || containsS t "en transito"
          || containsS t "in transit" then
        ShipmentStatus.in_transit
      else if containsS t "pendiente de recepcion" || containsS t "pendiente de recogida"
          || containsS t "admitido" then
        ShipmentStatus.information_received
      else map_status_from_text (some text)

/-- Model of `ctt.normalize_ctt_response`. -/
def normalize_ctt_response (raw : CttRaw) (tracking_number : String)
    (now : PyDateTime) : TrackingResponse :=
  match raw.data with
  | none => { shipments := [], provider := "ctt", query_timestamp := now }
  | some data =>
    let events := sortEvents (data.events.map (cttEventOf now))
    let status := inferCttStatus events
    let origin := pyOrO data.origin_name data.origin_province_name
    let destination := pyOrO data.destin_name data.destin_province_name
    let est_str := pyOrO data.committed_delivery_datetime
      (pyOrO data.reported_delivery_date data.delivery_date)
    let estimated_delivery :=
      match pyTruthy est_str with
      | some s => parse_dt_iso (some s)
      | none => none
    let actual_delivery :=
      if status = ShipmentStatus.delivered then
        let ad_str := pyOrO data.delivery_date est_str
        match pyTruthy ad_str with
        | some s => parse_dt_iso (some s)
        | none => none
      else none
    let tracking := pyOrD data.shipping_code tracking_number
    let extras : List (String × Option PyVal) :=
      [("client_reference", data.client_reference),
        ("declared_weight", data.declared_weight),
        ("final_weight", data.final_weight),
        ("shipping_type_code", data.shipping_type_code),
        ("client_center_code", data.client_center_code),
        ("client_code", data.client_code),
        ("item_count", data.item_count),
        ("traffic_type_code", data.traffic_type_code),
        ("has_custom", data.has_custom)]
    let shipment : Shipment :=
      { tracking_number := tracking
        carrier := "ctt"
        status := status
        events := events
        origin := origin
        destination := destination
        estimated_delivery := estimated_delivery
        actual_delivery := actual_delivery
        extras := some extras }
    { shipments := [shipment], provider := "ctt", query_timestamp := now }

/-! ### GLS adapter (`providers/gls.py`) -/

/-- One raw GLS event object. -/
structure GlsRawEvent where
  eventDateTime : Option String := none
  description : Option String := none
  code : Option String := none
  city : Option String := none
  postalCode : Option String := none
  country : Option String := none
deriving Repr

/-- One raw GLS parcel object. -/
structure GlsParcel where
  unitno : Option String := none
  status : Option String := none
  events : List GlsRawEvent := []
  errorCode : Option String := none
  errorMessage : Option String := none
deriving Repr

/-- Raw GLS `ParcelsResponseDTO`: `(raw or {}).get("parcels", []) or []`. -/
structure GlsRaw where
  parcels : List GlsParcel := []
deriving Repr

/-- Model of `gls._parse_gls_datetime`: two strptime formats, then a
colon-insertion retry through `fromisoformat`. -/
def glsParseDatetime (s : Option String) : Option PyDateTime :=
  match pyTruthy s with
  | none => none
  | some s0 =>
    match strptimeYmdHMSz s0 with
    | some dt => some dt
    | none =>
      match strptimeYmdHMS s0 with
      | some dt => some dt
      | none =>
        let l := s0.toList
        let r := l.reverse
        if 5 ≤ l.length ∧ (r.get? 4 = some '+' ∨ r.get? 4 = some '-')
            ∧ r.get? 2 ≠ some ':' then
          pyFromIsoChars (l.take (l.length - 2) ++ [':'] ++ l.drop (l.length - 2))
        else none

/-- Model of `gls._compose_location`. -/
def glsComposeLocation (city postal country : Option String) : Option String :=
  let c := pyStrip (city.getD "")
  let p := pyStrip (postal.getD "")
  let r := pyStrip (country.getD "")
  let left := pyJoin " " ([c, p].filter (· ≠ ""))
  if left ≠ "" ∧ r ≠ "" then some (left ++ ", " ++ r)
  else if left ≠ "" then some left
  else if r ≠ "" then some r
  else none

/-- Model of `gls._map_gls_status`. -/
def glsMapStatus (s : String) : ShipmentStatus :=
  if s = "PLANNEDPICKUP" then ShipmentStatus.information_received
  else if s = "INPICKUP" then ShipmentStatus.information_received
  else if s = "NOTPICKEDUP" then ShipmentStatus.exception
  else if s = "PREADVICE" then ShipmentStatus.information_received
  else if s = "INTRANSIT" then ShipmentStatus.in_transit
  else if s = "INDELIVERY" then ShipmentStatus.out_for_delivery
  else if s = "DELIVEREDPS" then ShipmentStatus.delivered
  else if s = "DELIVERED" then ShipmentStatus.delivered
  else if s = "INWAREHOUSE" then ShipmentStatus.in_transit
  else if s = "NOTDELIVERED" then ShipmentStatus.exception
  else if s = "CANCELED" then ShipmentStatus.cancelled
  else if s = "FINAL" then ShipmentStatus.unknown
  else ShipmentStatus.unknown

/-- Event transform of `normalize_gls_parcels_response`. -/
def glsEventOf (now : PyDateTime) (ev : GlsRawEvent) : TrackingEvent :=
  let ts := (glsParseDatetime ev.eventDateTime).getD now
  let desc := pyOrD ev.description (pyOrD ev.code "")
  { timestamp := ts
    status := desc
    location := glsComposeLocation ev.city ev.postalCode ev.country
    details := some desc
    status_code := ev.code }

/-- Parcel transform of `normalize_gls_parcels_response` (skipping entries
without a truthy `unitno`). -/
def glsShipmentOf (now : PyDateTime) (p : GlsParcel) : Option Shipment :=
  match pyTruthy p.unitno with
  | none => none
  | some unitno =>
    some { tracking_number := unitno
           carrier := "gls"
           status := glsMapStatus (pyUpper (pyOrD p.status ""))
           events := sortEvents (p.events.map (glsEventOf now)) }

/-- Model of `gls.normalize_gls_parcels_response`. -/
def normalize_gls_parcels_response (raw : GlsRaw) (now : PyDateTime) :
    TrackingResponse :=
  { shipments := raw.parcels.filterMap (glsShipmentOf now)
    provider := "gls"
    query_timestamp := now }

/-! ### Correos adapter (`providers/correos.py`) -/

/-- One raw Correos event object. -/
structure CorreosRawEvent where
  eventDate : Option String := none
  eventTime : Option String := none
  summaryText : Option String := none
  extendedText : Option String := none
  eventCode : Option String := none
deriving Repr

/-- One raw Correos shipment object. -/
structure CorreosRawShipment where
  shipmentCode : Option String := none
  events : List CorreosRawEvent := []
deriving Repr

/-- Raw Correos payload (`raw_data.get("shipment", [])`). -/
structure CorreosRaw where
  shipment : List CorreosRawShipment := []
deriving Repr

/-- Model of `datetime.strptime(s, "%d/%m/%Y %H:%M")`. -/
def strptimeDMYHM (s : String) : Option PyDateTime :=
  match read1or2 s.toList with
  | none => none
  | some (d, l1) =>
    match expectC '/' l1 with
    | none => none
    | some l2 =>
      match read1or2 l2 with
      | none => none
      | some (m, l3) =>
        match expectC '/' l3 with
        | none => none
        | some l4 =>
          match readFix 4 0 l4 with
          | none => none
          | some (y, l5) =>
            match expectC ' ' l5 with
            | none => none
            | some l6 =>
              match read1or2 l6 with
              | none => none
              | some (h, l7) =>
                match expectC ':' l7 with
                | none => none
                | some l8 =>
                  match read1or2 l8 with
                  | none => none
                  | some (mi, l9) =>
                    if l9 = [] ∧ validDT y m d h mi 0 then
                      some ⟨y, m, d, h, mi, 0, none⟩
                    else none

/-- Model of `datetime.strptime(s, "%d/%m/%Y")`. -/
def strptimeDMY (s : String) : Option PyDateTime :=
  match read1or2 s.toList with
  | none => none
  | some (d, l1) =>
    match expectC '/' l1 with
    | none => none
    | some l2 =>
      match read1or2 l2 with
      | none => none
      | some (m, l3) =>
        match expectC '/' l3 with
        | none => none
        | some l4 =>
          match readFix 4 0 l4 with
          | none => none
          | some (y, l5) =>
            if l5 = [] ∧ validDT y m d 0 0 0 then some ⟨y, m, d, 0, 0, 0, none⟩
            else none

/-- Model of `correos._parse_correos_datetime`: combine `DD/MM/YYYY` and
`HH:MM` fields, substituting `now` whenever parsing fails (total, never
raises, never drops the event). -/
def correosParseDatetime (date_str time_str : String) (now : PyDateTime) :
    PyDateTime :=
  if date_str ≠ "" ∧ time_str ≠ "" then
    (strptimeDMYHM (date_str ++ " " ++ time_str)).getD now
  else if date_str ≠ "" then (strptimeDMY date_str).getD now
  else now

/-- Event transform of `normalize_correos_response`. -/
def correosEventOf (now : PyDateTime) (ev : CorreosRawEvent) : TrackingEvent :=
  { timestamp := correosParseDatetime (ev.eventDate.getD "") (ev.eventTime.getD "") now
    status := ev.summaryText.getD ""
    details := ev.extendedText
    location := none
    status_code := pyTruthy (some (ev.eventCode.getD "")) }

/-- Model of `correos._infer_correos_status`. -/
def inferCorreosStatus (events : List TrackingEvent) : ShipmentStatus :=
  match events.getLast? with
  | none => ShipmentStatus.unknown
  | some latest =>
    let t := pyLower latest.status
    if containsS t "entregado" || containsS t "delivered" then
      ShipmentStatus.delivered
    else if containsS t "reparto" || containsS t "delivery" then
      ShipmentStatus.out_for_delivery
    else if containsS t "transito" || containsS t "transit" then
      ShipmentStatus.in_transit
    else if containsS t "admitido" || containsS t "received" then
      ShipmentStatus.information_received
    else ShipmentStatus.unknown

/-- Model of `correos.normalize_correos_response`. -/
def normalize_correos_response (raw : CorreosRaw) (tracking_number : String)
    (now : PyDateTime) : TrackingResponse :=
  match raw.shipment with
  | [] => { shipments := [], provider := "correos", query_timestamp := now }
  | cs :: _ =>
    let events := sortEvents (cs.events.map (correosEventOf now))
    let status := inferCorreosStatus events
    let shipment : Shipment :=
      { tracking_number := cs.shipmentCode.getD tracking_number
        carrier := "correos"
        status := status
        events := events }
    { shipments := [shipment], provider := "correos", query_timestamp := now }

/-! ### Exception model -/

/-- Fields of a JSON error body that `cli._fallback_response` probes, plus the
`json.dumps` rendering used for the body snippet. -/
structure RespBody where
  code : Option String := none
  error_code : Option String := none
  error : Option String := none
  message : Option String := none
  error_description : Option String := none
  description : Option String := none
  detail : Option String := none
  dumpsStr : String := ""
deriving Repr

/-- Model of the Python exceptions this code distinguishes.  An
`httpStatusError` carries the response (status code, content type header,
parsed JSON body when the body is valid JSON, raw text) and the request URL
when `str(exc.request.url)` succeeds; `msg` models `str(exc)`. -/
inductive PyExc where
  | httpStatusError (statusCode : Nat) (contentTypeHdr : Option String)
      (jsonBody : Option RespBody) (textBody : String) (url : Option String)
      (msg : String)
  | httpError (url : Option String) (msg : String)
  | runtimeError (msg : String)
  | typeError (msg : String)
  | valueError (msg : String)
deriving Repr

/-- Model of `exc.__class__.__name__`. -/
def PyExc.clsName : PyExc → String
  | .httpStatusError .. => "HTTPStatusError"
  | .httpError .. => "HTTPError"
  | .runtimeError _ => "RuntimeError"
  | .typeError _ => "TypeError"
  | .valueError _ => "ValueError"

/-- Model of `str(exc)`. -/
def PyExc.str : PyExc → String
  | .httpStatusError _ _ _ _ _ m => m
  | .httpError _ m => m
  | .runtimeError m => m
  | .typeError m => m
  | .valueError m => m

/-! ### DHL adapter (`providers/dhl.py`) -/

/-- One raw DHL UTAPI event.  The nested `location.address` and
`location.servicePoint` lookups are flattened (every missing level collapses
to `{}` through the `or {}` chains in the source). -/
structure DhlRawEvent where
  timestamp : Option String := none
  status : Option String := none
  description : Option String := none
  statusDetailed : Option String := none
  remark : Option String := none
  nextSteps : Option String := none
  addressLocality : Option String := none
  countryCode : Option String := none
  servicePointLabel : Option String := none
  statusCode : Option String := none
deriving Repr

/-- The `details` object of a raw DHL shipment: `productName` under
`product`, and `(addressLocality, countryCode)` pairs under `origin.address`
and `destination.address` (outer `Option` models `"origin" in details`). -/
structure DhlDetails where
  productName : Option String := none
  origin : Option (Option String × Option String) := none
  destination : Option (Option String × Option String) := none
deriving Repr

/-- One raw DHL shipment; `statusCode` is `shipment.status.statusCode`
flattened through the `or {}` chain. -/
structure DhlRawShipment where
  id : Option String := none
  statusCode : Option String := none
  events : List DhlRawEvent := []
  details : DhlDetails := {}
deriving Repr

/-- Raw DHL UTAPI payload (`raw_data.get("shipments", [])`). -/
structure DhlRaw where
  shipments : List DhlRawShipment := []
deriving Repr

/-- Model of `dhl._map_utapi_status_code`. -/
def dhlMapStatusCode (code : String) : ShipmentStatus :=
  if code = "" then ShipmentStatus.unknown
  else
    let c := pyLower code
    if c = "delivered" then ShipmentStatus.delivered
    else if c = "failure" then ShipmentStatus.exception
    else if c = "pre-transit" then ShipmentStatus.information_received
    else if c = "transit" then ShipmentStatus.in_transit
    else ShipmentStatus.unknown

/-- Model of `str.isupper()` on the ASCII repertoire of DHL status codes:
at least one cased character and no lowercase one. -/
def pyIsUpper (s : String) : Bool :=
  s.toList.any (fun c => ('A' ≤ c ∧ c ≤ 'Z') ∨ ('a' ≤ c ∧ c ≤ 'z'))
    && s.toList.all (fun c => ¬ ('a' ≤ c ∧ c ≤ 'z'))

/-- Model of `dhl._looks_like_short_code`. -/
def dhlLooksLikeShortCode (s : String) : Bool :=
  s ≠ "" && s.toList.length ≤ 3 && pyIsUpper s

/-- Model of `dhl._select_event_text`. -/
def dhlSelectEventText (e : DhlRawEvent) : String × Option String :=
  let status_text := pyStrip (e.status.getD "")
  let desc := pyStrip (pyOrD e.description (pyOrD e.statusDetailed ""))
  let next_steps := pyStrip (e.nextSteps.getD "")
  let remark := pyStrip (e.remark.getD "")
  let status_out :=
    if dhlLooksLikeShortCode status_text ∧ desc ≠ "" then desc
    else pyOrD (some status_text) desc
  let parts : List String :=
    (if desc ≠ "" ∧ status_out ≠ desc then [desc] else [])
      ++ (if next_steps ≠ "" then ["Next: " ++ next_steps] else [])
      ++ (if remark ≠ "" then ["Remark: " ++ remark] else [])
  (status_out, if parts ≠ [] then some (pyJoin " | " parts) else none)

/-- Event transform of `normalize_dhl_response`. -/
def dhlEventOf (now : PyDateTime) (ev : DhlRawEvent) : TrackingEvent :=
  let ts := (parse_dt_iso (some (ev.timestamp.getD ""))).getD now
  let (status_text, details_text) := dhlSelectEventText ev
  let location :=
    match pyTruthy ev.addressLocality, pyTruthy ev.countryCode with
    | some locality, some country => some (locality ++ ", " ++ country)
    | some locality, none => some locality
    | none, _ =>
      match pyTruthy ev.servicePointLabel with
      | some label => some label
      | none => none
  { timestamp := ts
    status := status_text
    location := location
    details := details_text
    status_code := pyTruthy ev.statusCode }

def dhlOutForDeliveryPhrases : List String :=
  ["out for delivery", "in delivery", "loaded onto the delivery vehicle",
    "delivery vehicle"]

/-- Model of `dhl._infer_dhl_status`. -/
def inferDhlStatus (s : DhlRawShipment) (events : List TrackingEvent) :
    ShipmentStatus :=
  let st_code := pyStrip (s.statusCode.getD "")
  let mapped := dhlMapStatusCode st_code
  if mapped ≠ ShipmentStatus.unknown then
    if mapped = ShipmentStatus.in_transit then
      match events.getLast? with
      | some latest =>
        let latest_text := pyLower (pyOrD latest.details (pyOrD (some latest.status) ""))
        if dhlOutForDeliveryPhrases.any (fun p => containsS latest_text p) then
          ShipmentStatus.out_for_delivery
        else mapped
      | none => mapped
    else mapped
  else
    match events.getLast? with
    | none => ShipmentStatus.unknown
    | some latest =>
      match pyTruthy latest.status_code with
      | some sc =>
        let mapped2 := dhlMapStatusCode sc
        if mapped2 ≠ ShipmentStatus.unknown then
          if mapped2 = ShipmentStatus.in_transit then
            let text := pyLower (pyOrD latest.details (pyOrD (some latest.status) ""))
            if dhlOutForDeliveryPhrases.any (fun p => containsS text p) then
              ShipmentStatus.out_for_delivery
            else mapped2
          else mapped2
        else
          let text := pyOrD latest.details (pyOrD (some latest.status) "")
          let mapped3 := map_status_from_text (some text)
          if mapped3 ≠ ShipmentStatus.unknown then mapped3
          else ShipmentStatus.unknown
      | none =>
        let text := pyOrD latest.details (pyOrD (some latest.status) "")
        let mapped3 := map_status_from_text (some text)
        if mapped3 ≠ ShipmentStatus.unknown then mapped3
        else ShipmentStatus.unknown

/-- Model of the Python `f"{locality}, {country}".strip(", ")` pattern. -/
def stripCommaSpace (s : String) : String :=
  let isCS : Char → Bool := fun c => c = ',' ∨ c = ' '
  ⟨((s.toList.dropWhile isCS).reverse.dropWhile isCS).reverse⟩

/-- Model of `dhl.normalize_dhl_response`. -/
def normalize_dhl_response (raw : DhlRaw) (tracking_number : String)
    (now : PyDateTime) : TrackingResponse :=
  match raw.shipments with
  | [] => { shipments := [], provider := "dhl", query_timestamp := now }
  | ds :: _ =>
    let events := sortEvents (ds.events.map (dhlEventOf now))
    let status := inferDhlStatus ds events
    let service_type := ds.details.productName
    let origin := ds.details.origin.map (fun lc =>
      stripCommaSpace ((lc.1.getD "") ++ ", " ++ (lc.2.getD "")))
    let destination := ds.details.destination.map (fun lc =>
      stripCommaSpace ((lc.1.getD "") ++ ", " ++ (lc.2.getD "")))
    let shipment : Shipment :=
      { tracking_number := ds.id.getD tracking_number
        carrier := "dhl"
        status := status
        events := events
        service_type := service_type
        origin := origin
        destination := destination }
    { shipments := [shipment], provider := "dhl", query_timestamp := now }

/-! ### DPD adapter (`providers/dpd.py`), structured PLC normalizer -/

/-- One raw DPD scan event (`scanInfo.scan`); `content`/`label` flatten
`scanDescription`, `location` flattens `scanData.location`. -/
structure DpdScan where
  date : Option String := none
  location : Option String := none
  content : List String := []
  label : Option String := none
deriving Repr

/-- One raw DPD status milestone (`statusInfo`); `content` flattens
`description.content`. -/
structure DpdStatusInfo where
  status : Option String := none
  label : Option String := none
  content : List String := []
  statusHasBeenReached : Bool := false
  isCurrentStatus : Bool := false
  location : Option String := none
  date : Option String := none
deriving Repr

/-- Raw DPD PLC payload,
`obj["parcellifecycleResponse"]["parcelLifeCycleData"]` flattened through the
defensive `.get(..., {})` chains. -/
structure DpdPlcRaw where
  parcelLabelNumber : Option String := none
  statusInfo : List DpdStatusInfo := []
  scan : List DpdScan := []
deriving Repr

/-- Replace every `"Z"` with `"+00:00"` (`s.replace("Z", "+00:00")`). -/
def replaceZ (s : String) : String :=
  ⟨s.toList.flatMap (fun c => if c = 'Z' then "+00:00".toList else [c])⟩

/-- Model of `dpd._parse_iso_date`. -/
def dpdParseIsoDate (s : Option String) : Option PyDateTime :=
  match pyTruthy s with
  | none => none
  | some s0 =>
    match strptimeYmdHMS s0 with
    | some dt => some dt
    | none => pyFromIsoChars (replaceZ s0).toList

/-- Model of `datetime.strptime(s, "%d.%m.%Y, %H:%M")` /
`"%d.%m.%Y %H:%M"` (the separator between date and time is passed in). -/
def strptimeDotDMYHM (sep : List Char) (s : String) : Option PyDateTime :=
  match read1or2 s.toList with
  | none => none
  | some (d, l1) =>
    match expectC '.' l1 with
    | none => none
    | some l2 =>
      match read1or2 l2 with
      | none => none
      | some (m, l3) =>
        match expectC '.' l3 with
        | none => none
        | some l4 =>
          match readFix 4 0 l4 with
          | none => none
          | some (y, l5) =>
            if l5.take sep.length = sep then
              let l6 := l5.drop sep.length
              match read1or2 l6 with
              | none => none
              | some (h, l7) =>
                match expectC ':' l7 with
                | none => none
                | some l8 =>
                  match read1or2 l8 with
                  | none => none
                  | some (mi, l9) =>
                    if l9 = [] ∧ validDT y m d h mi 0 then
                      some ⟨y, m, d, h, mi, 0, none⟩
                    else none
            else none

/-- Model of `dpd._parse_dpd_status_date`. -/
def dpdParseStatusDate (s : Option String) : Option PyDateTime :=
  match pyTruthy s with
  | none => none
  | some s0 =>
    match strptimeDotDMYHM [',', ' '] s0 with
    | some dt => some dt
    | none => strptimeDotDMYHM [' '] s0

/-- The string branch of `dpd._coerce_timestamp` applied to one value
(the scan dictionaries only carry the `date` key among the probed ones, and
with a string value). -/
def dpdCoerceStr (v : String) : Option PyDateTime :=
  match strptimeYmdHMSz v with
  | some dt => some dt
  | none =>
    match strptimeYmdHMS v with
    | some dt => some dt
    | none =>
      match strptimeDMYHM v with
      | some dt => some dt
      | none => strptimeDMY v

/-- Model of `dpd._coerce_timestamp` on a scan object. -/
def dpdCoerceScan (ev : DpdScan) : Option PyDateTime :=
  match pyTruthy ev.date with
  | none => none
  | some v => dpdCoerceStr v

/-- Scan-event transform of `_normalize_dpd_plc_json`. -/
def dpdScanEventOf (now : PyDateTime) (ev : DpdScan) : TrackingEvent :=
  let ts :=
    match dpdParseIsoDate ev.date with
    | some dt => some dt
    | none => dpdCoerceScan ev
  let status_text := pyOrO ev.content.head? ev.label
  { timestamp := ts.getD now
    status := status_text.getD ""
    location := ev.location
    details := status_text }

/-- Milestone-event transform of `_normalize_dpd_plc_json` (only reached
milestones are kept). -/
def dpdStatusEventOf (now : PyDateTime) (st : DpdStatusInfo) : TrackingEvent :=
  let ts := dpdParseStatusDate st.date
  let status_text := pyOrO st.content.head? (pyOrO st.label st.status)
  { timestamp := ts.getD now
    status := status_text.getD ""
    location := st.location
    details := status_text }

/-- Status derivation of `_normalize_dpd_plc_json`: the current milestone's
status code, else keywords of the latest event's text. -/
def dpdDeriveStatus (status_info : List DpdStatusInfo)
    (events : List TrackingEvent) : ShipmentStatus :=
  match status_info.find? (fun s => s.isCurrentStatus) with
  | some current =>
    let cur := pyUpper (pyOrD current.status "")
    if containsS cur "DELIVERED" then ShipmentStatus.delivered
    else if containsS cur "OUT_FOR_DELIVERY" then ShipmentStatus.out_for_delivery
    else if containsS cur "ON_THE_ROAD" || containsS cur "AT_DELIVERY_DEPOT"
        || containsS cur "IN_TRANSIT" then ShipmentStatus.in_transit
    else if containsS cur "PICKUP" then ShipmentStatus.information_received
    else ShipmentStatus.unknown
  | none =>
    match events.getLast? with
    | none => ShipmentStatus.unknown
    | some latest =>
      let last := pyLower (pyOrD (some latest.status) "")
      if containsS last "delivered" then ShipmentStatus.delivered
      else if containsS last "out for delivery" || containsS last "delivery" then
        ShipmentStatus.out_for_delivery
      else if containsS last "transit" || containsS last "depot"
          || containsS last "on the way" then ShipmentStatus.in_transit
      else ShipmentStatus.unknown

/-- Model of `dpd._normalize_dpd_plc_json` (returns a `Shipment`). -/
def dpdNormalizePlcJson (obj : DpdPlcRaw) (parcel_number : String)
    (locale language_input normalized_from : Option String)
    (now : PyDateTime) : Shipment :=
  let events :=
    if ¬ obj.scan.isEmpty then
      sortEvents (obj.scan.map (dpdScanEventOf now))
    else if ¬ obj.statusInfo.isEmpty then
      sortEvents ((obj.statusInfo.filter (fun st => st.statusHasBeenReached)).map
        (dpdStatusEventOf now))
    else sortEvents []
  let status_enum := dpdDeriveStatus obj.statusInfo events
  let tracking_number := pyOrD obj.parcelLabelNumber parcel_number
  let extras1 : List (String × Option PyVal) :=
    match pyTruthy locale with
    | some loc => [("dpd_locale", some (PyVal.str loc))]
    | none => []
  let extras2 : List (String × Option PyVal) :=
    match pyTruthy normalized_from, language_input, pyTruthy locale with
    | some _, some li, some loc =>
      let canon := pyStrip li
      if canon ≠ "" ∧ pyLower canon ≠ pyLower loc then
        [("language_normalized_from", some (PyVal.str canon))]
      else []
    | _, _, _ => []
  let extras := extras1 ++ extras2
  { tracking_number := tracking_number
    carrier := "dpd"
    status := status_enum
    events := events
    extras := if extras.isEmpty then none else some extras }

/-! ### Ecoscooting adapter (`providers/ecoscooting.py`) -/

/-- One entry of the Cainiao `statuses` array.  `datetime` and `statusName`
are accessed with mandatory subscripts in the source (`event_data["datetime"]`),
so they are required fields here. -/
structure EcoStatus where
  datetime : String
  statusName : String
  description : Option String := none
  statusGroup : Option String := none
deriving Repr

/-- Raw Cainiao response body, flattened through `packageParam` /
`popStationParam` lookups. -/
structure EcoRaw where
  success : Option String := none
  statuses : List EcoStatus := []
  toCity : Option String := none
  toZipcode : Option String := none
  stationName : Option String := none
  detailAddress : Option String := none
deriving Repr

/-- Outcome of `_parse_ecoscooting_date`: regex mismatch (fall back to now),
a parsed aware datetime, or a `ValueError` escaping `strptime`/`timezone`. -/
inductive EcoParseOut where
  | noMatch
  | ok (dt : PyDateTime)
  | valueError
deriving Repr

/-- Read one or more decimal digits (the `\d+` of the offset group). -/
def readDigits1 (l : List Char) : Option (Nat × List Char) :=
  match l with
  | c :: _ =>
    if c.isDigit then
      let ds := l.takeWhile Char.isDigit
      some (ds.foldl (fun acc c => acc * 10 + digitVal c) 0, l.dropWhile Char.isDigit)
    else none
  | [] => none

/-- Model of `ecoscooting._parse_ecoscooting_date` against the regex
`(\d{4}-\d{2}-\d{2} \d{2}:\d{2}:\d{2}) UTC([+-]\d+)` (a prefix match:
trailing characters are allowed). -/
def ecoParseDate (s : String) : EcoParseOut :=
  let l := s.toList
  match readFix 4 0 l with
  | none => .noMatch
  | some (y, l1) =>
    match expectC '-' l1 with
    | none => .noMatch
    | some l2 =>
      match readFix 2 0 l2 with
      | none => .noMatch
      | some (m, l3) =>
        match expectC '-' l3 with
        | none => .noMatch
        | some l4 =>
          match readFix 2 0 l4 with
          | none => .noMatch
          | some (d, l5) =>
            match expectC ' ' l5 with
            | none => .noMatch
            | some l6 =>
              match readFix 2 0 l6 with
              | none => .noMatch
              | some (h, l7) =>
                match expectC ':' l7 with
                | none => .noMatch
                | some l8 =>
                  match readFix 2 0 l8 with
                  | none => .noMatch
                  | some (mi, l9) =>
                    match expectC ':' l9 with
                    | none => .noMatch
                    | some l10 =>
                      match readFix 2 0 l10 with
                      | none => .noMatch
                      | some (sec, l11) =>
                        match l11 with
                        | ' ' :: 'U' :: 'T' :: 'C' :: sign :: l12 =>
                          if sign = '+' ∨ sign = '-' then
                            match readDigits1 l12 with
                            | none => .noMatch
                            | some (off, _) =>
                              if ¬ validDT y m d h mi sec then .valueError
                              else if off = 0 then .ok ⟨y, m, d, h, mi, sec, some 0⟩
                              else if 24 ≤ off then .valueError
                              else
                                let tz : Int :=
                                  (if sign = '-' then -1 else 1) * (Int.ofNat (off * 60))
                                .ok ⟨y, m, d, h, mi, sec, some tz⟩
                          else .noMatch
                        | _ => .noMatch

/-- Model of `ecoscooting._map_ecoscooting_status`. -/
def ecoMapStatus (status_group : String) : ShipmentStatus :=
  if status_group = "" then ShipmentStatus.unknown
  else
    let s := pyLower status_group
    if s = "delivered" then ShipmentStatus.delivered
    else if s = "ready_for_collection" then ShipmentStatus.available_for_pickup
    else if s = "delivering" then ShipmentStatus.out_for_delivery
    else if s = "in_transit" then ShipmentStatus.in_transit
    else ShipmentStatus.unknown

/-- Event loop of `ecoscooting.track`: builds events in payload order; a
`ValueError` escaping `_parse_ecoscooting_date` aborts the loop. -/
def ecoEventsOf (now : PyDateTime) : List EcoStatus → Except PyExc (List TrackingEvent)
  | [] => .ok []
  | st :: rest =>
    let ts :=
      match ecoParseDate st.datetime with
      | .noMatch => some now
      | .ok dt => some dt
      | .valueError => none
    match ts with
    | none => .error (.valueError ("time data does not parse: " ++ st.datetime))
    | some t =>
      match ecoEventsOf now rest with
      | .error e => .error e
      | .ok evs =>
        .ok ({ timestamp := t
               status := st.statusName
               details := st.description : TrackingEvent } :: evs)

/-- The normalization half of `ecoscooting.track`: everything inside its
`try` block after the API call returned `data`.  Raising is modelled by
`Except.error`. -/
def ecoInlineNormalize (data : EcoRaw) (tracking_number : String)
    (now : PyDateTime) : Except PyExc TrackingResponse :=
  if data.success ≠ some "true" then
    .error (.runtimeError "API returned success=false")
  else
    match ecoEventsOf now data.statuses with
    | .error e => .error e
    | .ok events =>
      let destination_parts : List String :=
        (match pyTruthy data.toCity with | some c => [c] | none => [])
          ++ (match pyTruthy data.toZipcode with | some z => [z] | none => [])
          ++ (match pyTruthy data.stationName with
              | some n => ["PUDO: " ++ n] | none => [])
          ++ (match pyTruthy data.detailAddress with | some a => [a] | none => [])
      let destination :=
        if destination_parts ≠ [] then some (pyJoin ", " destination_parts) else none
      let shipment_status :=
        match events, data.statuses with
        | _ :: _, latest :: _ => ecoMapStatus (latest.statusGroup.getD "")
        | _, _ => ShipmentStatus.unknown
      let actual_delivery :=
        match events.head? with
        | some e0 =>
          if shipment_status = ShipmentStatus.delivered then some e0.timestamp
          else none
        | none => none
      let shipment : Shipment :=
        { tracking_number := tracking_number
          carrier := "ecoscooting"
          status := shipment_status
          events := events
          destination := destination
          actual_delivery := actual_delivery }
      .ok { shipments := [shipment], provider := "ecoscooting",
            query_timestamp := now }

/-- Keyword parameters accepted by `utils.get_with_retries` (from its
signature: everything after the bare `url` positional is keyword-only). -/
def getWithRetriesKwargs : List String :=
  ["params", "headers", "timeout", "max_attempts", "backoff_base",
    "status_forcelist"]

/-- Keyword arguments `_call_cainiao_api` passes to `get_with_retries`. -/
def ecoCallKwargs : List String := ["method", "data", "headers"]

/-- Model of `ecoscooting._call_cainiao_api`.  The network oracle `net`
returns the HTTP status and parsed body of a successful transport call; it is
only consulted if the keyword arguments are accepted by the callee's
signature — CPython raises `TypeError` at call time otherwise, before any
network I/O.  Any exception is wrapped into the `Failed to call Cainiao API`
`RuntimeError`. -/
def ecoCallCainiao (net : String → Except PyExc (Nat × EcoRaw))
    (tracking_number : String) : Except PyExc EcoRaw :=
  let callResult : Except PyExc (Nat × EcoRaw) :=
    match ecoCallKwargs.filter (fun k => k ∉ getWithRetriesKwargs) with
    | k :: _ =>
      .error (.typeError
        ("get_with_retries() got an unexpected keyword argument '" ++ k ++ "'"))
    | [] => net tracking_number
  let inner : Except PyExc EcoRaw :=
    match callResult with
    | .ok (status, body) =>
      if status = 200 then .ok body
      else .error (.runtimeError ("API returned status " ++ toString status))
    | .error e => .error e
  match inner with
  | .ok body => .ok body
  | .error e => .error (.runtimeError ("Failed to call Cainiao API: " ++ e.str))

/-- The error-fallback `TrackingResponse` built by `ecoscooting.track`'s
`except` branch. -/
def ecoErrorResponse (tracking_number : String) (e : PyExc)
    (now : PyDateTime) : TrackingResponse :=
  { shipments := [
      { tracking_number := tracking_number
        carrier := "ecoscooting"
        status := ShipmentStatus.unknown
        events := [
          { timestamp := now
            status := "Error fetching tracking data"
            details := some e.str }] }]
    provider := "ecoscooting"
    query_timestamp := now }

/-- Model of `ecoscooting.track`: call the API, normalize, and catch every
exception into the diagnostic fallback response. -/
def ecoTrack (net : String → Except PyExc (Nat × EcoRaw))
    (tracking_number : String) (now : PyDateTime) : TrackingResponse :=
  match ecoCallCainiao net tracking_number with
  | .error e => ecoErrorResponse tracking_number e now
  | .ok data =>
    match ecoInlineNormalize data tracking_number now with
    | .ok r => r
    | .error e => ecoErrorResponse tracking_number e now

/-! ### Track entry points with credential checks (`dhl.track`, `gls.track`) -/

/-- Request `dhl.track` builds before calling the transport. -/
structure DhlRequest where
  trackingNumber : String
  language : String
  limit : Nat
  apiKey : String
deriving Repr

/-- Model of `dhl.track`: a missing or empty `DHL_API_KEY` raises a
`RuntimeError` before the transport oracle `net` is ever consulted; otherwise
the fetched payload is normalized. -/
def dhlTrack (env : Env) (net : DhlRequest → Except PyExc DhlRaw)
    (tracking_number : String) (language : String) (limit : Option Nat)
    (now : PyDateTime) : Except PyExc TrackingResponse :=
  match pyTruthy (env "DHL_API_KEY") with
  | none =>
    .error (.runtimeError
      "DHL_API_KEY is not set. Add it to your environment or .env file.")
  | some apiKey =>
    let req : DhlRequest :=
      { trackingNumber := tracking_number
        language := language
        limit := limit.getD 50
        apiKey := apiKey }
    match net req with
    | .error e => .error e
    | .ok raw => .ok (normalize_dhl_response raw tracking_number now)

/-- Model of `gls.track`: missing or empty `GLS_CLIENT_ID`/`GLS_CLIENT_SECRET`
raises before the OAuth token fetch; a token response without an
`access_token` raises; otherwise the tracking payload is normalized. -/
def glsTrack (env : Env)
    (tokenNet : String × String → Except PyExc (Option String))
    (trackNet : String × String → Except PyExc GlsRaw)
    (reference : String) (now : PyDateTime) : Except PyExc TrackingResponse :=
  match pyTruthy (env "GLS_CLIENT_ID"), pyTruthy (env "GLS_CLIENT_SECRET") with
  | some cid, some csec =>
    match tokenNet (cid, csec) with
    | .error e => .error e
    | .ok tok =>
      match pyTruthy tok with
      | none => .error (.runtimeError "Failed to obtain GLS access_token")
      | some token =>
        match trackNet (token, reference) with
        | .error e => .error e
        | .ok raw => .ok (normalize_gls_parcels_response raw now)
  | _, _ =>
    .error (.runtimeError
      "GLS_CLIENT_ID/GLS_CLIENT_SECRET are not set. Add them to your environment or .env file.")

/-! ### CLI fallback and `cmd_track` (`cli.py`) -/

def takeStr (n : Nat) (s : String) : String := ⟨s.toList.take n⟩

/-- Model of `cli._fallback_response`: the normalized UNKNOWN response built
when an adapter raised `exc`. -/
def fallbackResponse (carrier code : String) (exc : PyExc) (now : PyDateTime) :
    TrackingResponse :=
  let default_details := exc.clsName ++ ": " ++ exc.str
  let (status_code, status_text, details, ev_extras) :
      Option String × String × String × List (String × Option PyVal) :=
    match exc with
    | .httpStatusError n ctypeHdr jsonBody textBody url _ =>
      let status_code := some (toString n)
      let status_text := "HTTP " ++ toString n ++ " while fetching"
      let ctype := pyLower (ctypeHdr.getD "")
      let (provider_error_code, provider_error_desc, body_snippet) :
          Option String × Option String × Option String :=
        if containsS ctype "json" then
          match jsonBody with
          | some b =>
            let pec0 := pyStrip (pyOrD b.code (pyOrD b.error_code (pyOrD b.error "")))
            let pec := if pec0 = "" then none else some pec0
            let ped := pyOrO b.message (pyOrO b.error_description
              (pyOrO b.description (pyTruthy b.detail)))
            let bs := match ped with
              | none => some (takeStr 500 b.dumpsStr)
              | some _ => none
            (pec, ped, bs)
          | none => (none, none, none)
        else
          (none, none,
            if textBody ≠ "" then some (takeStr 500 textBody) else none)
      let parts : List String :=
        (match url with | some u => ["URL: " ++ u] | none => [])
          ++ (match pyTruthy provider_error_code with
              | some c => ["Provider error code: " ++ c] | none => [])
          ++ (match pyTruthy provider_error_desc with
              | some d => ["Provider error: " ++ d] | none => [])
          ++ (match pyTruthy body_snippet, provider_error_desc with
              | some s, none => ["Body: " ++ s] | _, _ => [])
      let details := if parts.isEmpty then default_details else pyJoin " | " parts
      let ev_extras : List (String × Option PyVal) :=
        [("url", url.map PyVal.str),
          ("provider_error_code", provider_error_code.map PyVal.str),
          ("provider_error_description", provider_error_desc.map PyVal.str)]
          ++ (match pyTruthy body_snippet with
              | some s => [("body_snippet", some (PyVal.str s))] | none => [])
      (status_code, status_text, details, ev_extras)
    | .httpError url _ =>
      (none, "HTTP error during tracking", default_details,
        match url with | some u => [("url", some (PyVal.str u))] | none => [])
    | _ => (none, "Error during tracking", default_details, [])
  { shipments := [
      { tracking_number := code
        carrier := carrier
        status := ShipmentStatus.unknown
        events := [
          { timestamp := now
            status := status_text
            location := none
            details := some details
            status_code := status_code
            extras := if ev_extras.isEmpty then none else some ev_extras }] }]
    provider := carrier
    query_timestamp := now }

/-- Model of the error handling of `cli.cmd_track`: `strict` propagates the
adapter's exception; otherwise a raised exception becomes the fallback
response and an exit code of 1 (0 on success). -/
def cmdTrack (strict : Bool) (trackerResult : Except PyExc TrackingResponse)
    (carrier code : String) (now : PyDateTime) :
    Except PyExc (TrackingResponse × Nat) :=
  if strict then
    match trackerResult with
    | .ok r => .ok (r, 0)
    | .error e => .error e
  else
    match trackerResult with
    | .ok r => .ok (r, 0)
    | .error e => .ok (fallbackResponse carrier code e now, 1)

/-! ### Concrete inputs used by the scenario theorems -/

/-- Reference wall-clock instant used to instantiate `now` parameters. -/
def nowRef : PyDateTime := ⟨2025, 9, 20, 12, 0, 0, none⟩

/-- CTT payload of the end-to-end scenario: codes 0000/1000/1500 dated
2025-09-06 / 2025-09-15 / 2025-09-16, fed in scrambled order. -/
def cttC7Raw : CttRaw :=
  { data := some { events := [
      { event_date := some "2025-09-15T09:00:00"
        description := some "En tránsito", code := some "1000" },
      { event_date := some "2025-09-16T08:00:00"
        description := some "Entrega hoy", code := some "1500" },
      { event_date := some "2025-09-06T10:00:00"
        description := some "Pendiente de recepción", code := some "0000" }] } }

def glsDeliveredRaw : GlsRaw :=
  { parcels := [{ unitno := some "GLS1", status := some "DELIVEREDPS" }] }

def glsPreadviceRaw : GlsRaw :=
  { parcels := [{ unitno := some "GLS2", status := some "PREADVICE" }] }

def glsTwoInTransitRaw : GlsRaw :=
  { parcels := [{ unitno := some "GLS3A", status := some "INTRANSIT" },
      { unitno := some "GLS3B", status := some "INTRANSIT" }] }

/-- Ecoscooting payload whose statuses arrive newest-first (the order the
Cainiao API actually uses). -/
def ecoNewestFirstRaw : EcoRaw :=
  { success := some "true"
    statuses := [
      { datetime := "2025-09-16 10:00:00 UTC+0", statusName := "Delivered"
        statusGroup := some "DELIVERED" },
      { datetime := "2025-09-15 09:00:00 UTC+0", statusName := "Out for delivery"
        statusGroup := some "DELIVERING" }] }

/-! ### C7 -/

/-- C7: normalizing a CTT payload with events coded 0000 ("Pendiente de
recepción", 2025-09-06), 1000 ("En tránsito", 2025-09-15) and 1500 ("Entrega
hoy", 2025-09-16) produces exactly 3 events in ascending timestamp order and
an overall status of `out_for_delivery`, derived from the `1500` code of the
latest event. -/
theorem c7_ctt_scenario :
    (normalize_ctt_response cttC7Raw "CTT123" nowRef).shipments.map
        (fun s => (s.status, s.events.map (fun e => e.status_code)))
        = [(ShipmentStatus.out_for_delivery, [some "0000", some "1000", some "1500"])]
      ∧ (normalize_ctt_response cttC7Raw "CTT123" nowRef).shipments.map
        (fun s => s.events.length) = [3]
      ∧ (normalize_ctt_response cttC7Raw "CTT123" nowRef).shipments.map
        (fun s => decide (List.Pairwise
            (fun a b => dtKey a.timestamp ≤ dtKey b.timestamp) s.events)) = [true] := by
  decide

/-! ### C8 -/

/-- C8: in GLS normalization a parcel with carrier-native status
`DELIVEREDPS` classifies as `delivered`, `PREADVICE` as
`information_received`, and two parcels both reporting `INTRANSIT` yield two
shipments both classified `in_transit`. -/
theorem c8_gls_scenario :
    (normalize_gls_parcels_response glsDeliveredRaw nowRef).shipments.map
        Shipment.status = [ShipmentStatus.delivered]
      ∧ (normalize_gls_parcels_response glsPreadviceRaw nowRef).shipments.map
        Shipment.status = [ShipmentStatus.information_received]
      ∧ (normalize_gls_parcels_response glsTwoInTransitRaw nowRef).shipments.map
        Shipment.status = [ShipmentStatus.in_transit, ShipmentStatus.in_transit] := by
  decide

/-! ### C10 -/

/-- C10: for every tracking number (and any transport behaviour), the
Ecoscooting `track` returns — never raises — a `TrackingResponse` with
provider `ecoscooting` holding exactly one `unknown` shipment whose single
event reads `Error fetching tracking data`: the adapter passes `method` and
`data` keyword arguments that `get_with_retries` does not accept, so the call
raises `TypeError` before any network I/O and the error branch is always
taken. -/
theorem c10_ecoscooting_always_fallback :
    ∀ (net : String → Except PyExc (Nat × EcoRaw)) (tn : String) (now : PyDateTime),
      ecoTrack net tn now =
        { shipments := [
            { tracking_number := tn
              carrier := "ecoscooting"
              status := ShipmentStatus.unknown
              events := [
                { timestamp := now
                  status := "Error fetching tracking data"
                  details := some ("Failed to call Cainiao API: " ++
                    "get_with_retries() got an unexpected keyword argument 'method'") }] }]
          provider := "ecoscooting"
          query_timestamp := now } := by
  intro net tn now
  rfl

/-! ### C1 -/

/-- C1 (counterexample): the inline normalization in `ecoscooting.track`
never sorts — a payload whose statuses arrive newest-first yields an events
list in descending timestamp order, so the claim that every adapter's
normalization returns timestamp-sorted events for any input ordering is
false. -/
theorem c1_counterexample :
    (ecoInlineNormalize ecoNewestFirstRaw "ECO1" nowRef).toOption.map
        (fun r => r.shipments.map (fun s =>
          (decide (List.Pairwise
              (fun a b => dtKey a.timestamp ≤ dtKey b.timestamp) s.events),
            s.events.map (fun e => dtKey e.timestamp))))
      = some [(false, [1758016800, 1757926800])] := by
  decide

/-- C1 (amended): the Correos, DHL, DPD (structured PLC), GLS and CTT
normalize functions return events sorted non-decreasing by timestamp for
every raw payload and input ordering; the Ecoscooting inline normalization
(and DPD's embedded-JSON fallback) returns events in payload order instead. -/
theorem c1_events_sorted_amended :
    (∀ raw tn now, (normalize_ctt_response raw tn now).shipments.Forall
      (fun s => List.Pairwise
        (fun a b => dtKey a.timestamp ≤ dtKey b.timestamp) s.events))
    ∧ (∀ raw now, (normalize_gls_parcels_response raw now).shipments.Forall
      (fun s => List.Pairwise
        (fun a b => dtKey a.timestamp ≤ dtKey b.timestamp) s.events))
    ∧ (∀ raw tn now, (normalize_dhl_response raw tn now).shipments.Forall
      (fun s => List.Pairwise
        (fun a b => dtKey a.timestamp ≤ dtKey b.timestamp) s.events))
    ∧ (∀ raw tn now, (normalize_correos_response raw tn now).shipments.Forall
      (fun s => List.Pairwise
        (fun a b => dtKey a.timestamp ≤ dtKey b.timestamp) s.events))
    ∧ (∀ obj pn loc li nf now, List.Pairwise
        (fun a b => dtKey a.timestamp ≤ dtKey b.timestamp)
        (dpdNormalizePlcJson obj pn loc li nf now).events) := by
  refine ⟨?_, ?_, ?_, ?_, ?_⟩
  · intro raw tn now
    cases hd : raw.data with
    | none => simp [normalize_ctt_response, hd]
    | some d =>
      simp only [normalize_ctt_response, hd, List.Forall]
      exact sortEvents_pairwise _
  · intro raw now
    rw [List.forall_iff_forall_mem]
    intro s hs
    simp only [normalize_gls_parcels_response, List.mem_filterMap] at hs
    obtain ⟨p, _, hp⟩ := hs
    unfold glsShipmentOf at hp
    cases hu : pyTruthy p.unitno with
    | none => rw [hu] at hp; cases hp
    | some u =>
      rw [hu] at hp
      injection hp with hp
      subst hp
      exact sortEvents_pairwise _
  · intro raw tn now
    cases hd : raw.shipments with
    | nil => simp [normalize_dhl_response, hd]
    | cons ds rest =>
      simp only [normalize_dhl_response, hd, List.Forall]
      exact sortEvents_pairwise _
  · intro raw tn now
    cases hd : raw.shipment with
    | nil => simp [normalize_correos_response, hd]
    | cons cs rest =>
      simp only [normalize_correos_response, hd, List.Forall]
      exact sortEvents_pairwise _
  · intro obj pn loc li nf now
    show List.Pairwise _
      (if ¬ obj.scan.isEmpty then sortEvents (obj.scan.map (dpdScanEventOf now))
        else if ¬ obj.statusInfo.isEmpty then
          sortEvents ((obj.statusInfo.filter (fun st => st.statusHasBeenReached)).map
            (dpdStatusEventOf now))
        else sortEvents [])
    split
    · exact sortEvents_pairwise _
    · split
      · exact sortEvents_pairwise _
      · exact sortEvents_pairwise _

/-! ### C3 -/

/-- C3 (counterexample): the generic free-text classifier
`map_status_from_text` is not accent-insensitive — `"En tránsito"` and its
accent-stripped form `"En transito"` (as produced by CTT's `_norm`) classify
differently, so the claim that matching in the Status Classifier is
accent-insensitive is false. -/
theorem c3_counterexample :
    map_status_from_text (some "En tránsito") = ShipmentStatus.unknown
      ∧ map_status_from_text (some "En transito") = ShipmentStatus.in_transit
      ∧ cttNorm "En tránsito" = "en transito" := by
  decide

/-- C3 (amended): free-text matching in `map_status_from_text` is
case-insensitive but not accent-insensitive (only CTT's `_infer_ctt_status`
strips accents before matching); the available-for-pickup phrases, including
"ready for pickup", are tested before the generic "pickup" substring, so
every text whose lowercasing contains "ready for pickup" classifies as
`available_for_pickup`, never `information_received`. -/
theorem c3_pickup_keyword_order :
    (∀ text : String, containsS (pyLower text) "ready for pickup" = true →
      map_status_from_text (some text) = ShipmentStatus.available_for_pickup)
    ∧ inferCttStatus [{ timestamp := nowRef, status := "En tránsito" }]
        = ShipmentStatus.in_transit
    ∧ ShipmentStatus.available_for_pickup ≠ ShipmentStatus.information_received := by
  refine ⟨?_, by decide, by decide⟩
  intro text h
  have hne : text ≠ "" := by
    intro he
    subst he
    exact absurd h (by decide)
  have hp : pyTruthy (some text) = some text := by simp [pyTruthy, hne]
  unfold map_status_from_text
  rw [hp]
  simp only [h, Bool.or_true, Bool.true_or, if_true]

/-- Witness for C3: a concrete mixed-case text containing "ready for pickup"
classifies as available-for-pickup. -/
theorem c3_pickup_keyword_order_witness :
    map_status_from_text (some "Parcel is Ready for Pickup at your store")
      = ShipmentStatus.available_for_pickup :=
  c3_pickup_keyword_order.1 "Parcel is Ready for Pickup at your store" (by decide)

/-! ### C5 -/

/-- C5: language resolution is total (the model is a total function and the
only partial lookup, `mapping[default_two_letter]`, can never miss) and
carrier-specific: `"xx-ZZ"` for dpd falls back to `en_US` (under the default
environment detection, and unconditionally in `dpd._resolve_locale`), `"de"`
for dhl stays `"de"`, `"es"` for gls becomes `"ES"`. -/
theorem c5_language_resolution :
    (∀ env : Env, detectDefaultLang env = "en" →
      (normalize_language env (some "xx-ZZ") (some "dpd")).1 = "en_US")
    ∧ (∀ env : Env, (normalize_language env (some "de") (some "dhl")).1 = "de")
    ∧ (∀ env : Env, (normalize_language env (some "es") (some "gls")).1 = "ES")
    ∧ dpdResolveLocale "xx-ZZ" = ("en_US", some "xx-ZZ")
    ∧ (∀ env : Env, (dpdLangMapGet (detectDefaultLang env)).isSome = true) := by
  refine ⟨?_, ?_, ?_, by decide, dpdLangMapGet_detect_isSome⟩
  · intro env h
    unfold normalize_language
    rw [h]
    rfl
  · intro env
    rfl
  · intro env
    rfl

/-- Witness for C5: the resolution facts at the empty environment. -/
theorem c5_language_resolution_witness :
    (normalize_language (fun _ => none) (some "xx-ZZ") (some "dpd")).1 = "en_US" :=
  c5_language_resolution.1 (fun _ => none) rfl

/-! ### C6 -/

/-- C6: a missing or empty required credential (`DHL_API_KEY`, or
`GLS_CLIENT_ID`/`GLS_CLIENT_SECRET`) makes the adapter's `track` raise a
configuration `RuntimeError` immediately — the result is this error for every
transport oracle, so no network request, retry, or normalization into a
`TrackingResponse` can have taken place. -/
theorem c6_missing_credentials :
    (∀ (env : Env) (net : DhlRequest → Except PyExc DhlRaw) (tn lang : String)
        (lim : Option Nat) (now : PyDateTime),
      pyTruthy (env "DHL_API_KEY") = none →
      dhlTrack env net tn lang lim now = .error (.runtimeError
        "DHL_API_KEY is not set. Add it to your environment or .env file."))
    ∧ (∀ (env : Env) (tokenNet : String × String → Except PyExc (Option String))
        (trackNet : String × String → Except PyExc GlsRaw) (ref : String)
        (now : PyDateTime),
      pyTruthy (env "GLS_CLIENT_ID") = none
        ∨ pyTruthy (env "GLS_CLIENT_SECRET") = none →
      glsTrack env tokenNet trackNet ref now = .error (.runtimeError
        "GLS_CLIENT_ID/GLS_CLIENT_SECRET are not set. Add them to your environment or .env file.")) := by
  constructor
  · intro env net tn lang lim now h
    unfold dhlTrack
    rw [h]
  · intro env tokenNet trackNet ref now h
    unfold glsTrack
    rcases h with h | h
    · rw [h]
    · rw [h]
      cases pyTruthy (env "GLS_CLIENT_ID") <;> rfl

/-- Witness for C6: both credential checks fire in an empty environment. -/
theorem c6_missing_credentials_witness :
    dhlTrack (fun _ => none) (fun _ => .error (.runtimeError "no transport"))
        "123" "en" none nowRef = .error (.runtimeError
        "DHL_API_KEY is not set. Add it to your environment or .env file.")
      ∧ glsTrack (fun _ => none) (fun _ => .error (.runtimeError "no transport"))
        (fun _ => .error (.runtimeError "no transport")) "REF" nowRef
        = .error (.runtimeError
        "GLS_CLIENT_ID/GLS_CLIENT_SECRET are not set. Add them to your environment or .env file.") :=
  ⟨c6_missing_credentials.1 (fun _ => none) _ "123" "en" none nowRef rfl,
    c6_missing_credentials.2 (fun _ => none) _ _ "REF" nowRef (Or.inl rfl)⟩

/-! ### C4 -/

/-- C4: datetime parsing is total — `parse_dt_iso` is a total function of its
(optional) string input, handling trailing-`Z` ISO, colon-less offsets and
date-only forms, returning `none` for `None`, empty and malformed inputs; and
callers that must attach a timestamp substitute the current time instead of
dropping the event (the CTT event loop keeps one event per raw event with
timestamp `parse or now`, and the Correos compound parser returns `now` on
failure). -/
theorem c4_datetime_parsing_total :
    parse_dt_iso (some "2025-09-16T10:30:00Z") = some ⟨2025, 9, 16, 10, 30, 0, some 0⟩
    ∧ parse_dt_iso (some "2025-09-16T10:30:00+0200")
        = some ⟨2025, 9, 16, 10, 30, 0, some 120⟩
    ∧ parse_dt_iso (some "2025-09-16") = some ⟨2025, 9, 16, 0, 0, 0, none⟩
    ∧ parse_dt_iso (some "") = none
    ∧ parse_dt_iso none = none
    ∧ parse_dt_iso (some "not a date") = none
    ∧ (∀ raw tn now, (normalize_ctt_response raw tn now).shipments.map
        (fun s => s.events.length)
        = match raw.data with
          | none => []
          | some d => [d.events.length])
    ∧ (∀ ev now, (cttEventOf now ev).timestamp
        = (parse_dt_iso (pyOrO ((ev.detail.getD {}).item_event_datetime)
            ev.event_date)).getD now)
    ∧ (∀ now, correosParseDatetime "not/a/date" "xx" now = now)
    ∧ (∀ now, correosParseDatetime "08/09/2025" "11:48" now
        = ⟨2025, 9, 8, 11, 48, 0, none⟩) := by
  refine ⟨by decide, by decide, by decide, by decide, rfl, by decide, ?_, ?_, ?_, ?_⟩
  · intro raw tn now
    cases hd : raw.data with
    | none => simp [normalize_ctt_response, hd]
    | some d =>
      simp only [normalize_ctt_response, hd, List.map_cons, List.map_nil]
      rw [sortEvents_length, List.length_map]
  · intro ev now
    rfl
  · intro now
    rfl
  · intro now
    rfl

/-! ### C9 -/

theorem cttEventOf_congr (ev : CttRawEvent) (now now' : PyDateTime)
    (h : (parse_dt_iso (pyOrO ((ev.detail.getD {}).item_event_datetime)
      ev.event_date)).isSome = true) :
    cttEventOf now ev = cttEventOf now' ev := by
  obtain ⟨v, hv⟩ := Option.isSome_iff_exists.mp h
  unfold cttEventOf
  simp only [hv, Option.getD_some]

theorem glsEventOf_congr (ev : GlsRawEvent) (now now' : PyDateTime)
    (h : (glsParseDatetime ev.eventDateTime).isSome = true) :
    glsEventOf now ev = glsEventOf now' ev := by
  obtain ⟨v, hv⟩ := Option.isSome_iff_exists.mp h
  unfold glsEventOf
  simp only [hv, Option.getD_some]

theorem dhlEventOf_congr (ev : DhlRawEvent) (now now' : PyDateTime)
    (h : (parse_dt_iso (some (ev.timestamp.getD ""))).isSome = true) :
    dhlEventOf now ev = dhlEventOf now' ev := by
  obtain ⟨v, hv⟩ := Option.isSome_iff_exists.mp h
  unfold dhlEventOf
  simp only [hv, Option.getD_some]

theorem glsShipmentOf_congr (p : GlsParcel) (now now' : PyDateTime)
    (h : ∀ ev ∈ p.events, (glsParseDatetime ev.eventDateTime).isSome = true) :
    glsShipmentOf now p = glsShipmentOf now' p := by
  unfold glsShipmentOf
  cases pyTruthy p.unitno with
  | none => rfl
  | some u =>
    have hm : p.events.map (glsEventOf now) = p.events.map (glsEventOf now') :=
      List.map_congr_left (fun ev hev => glsEventOf_congr ev now now' (h ev hev))
    simp only [hm]

/-- C9 (amended): each normalize function is a pure function of the raw
payload whenever every event datetime in the payload parses — two runs then
agree on everything except `query_timestamp`.  (When a datetime fails to
parse, the event timestamp is the wall clock of that run, so two runs can
differ beyond `query_timestamp`; see the counterexample.) -/
theorem c9_normalize_pure_amended :
    (∀ raw tn (now now' : PyDateTime),
      (∀ ev ∈ (raw.data.map CttData.events).getD [],
        (parse_dt_iso (pyOrO ((ev.detail.getD {}).item_event_datetime)
          ev.event_date)).isSome = true) →
      ((normalize_ctt_response raw tn now).shipments,
          (normalize_ctt_response raw tn now).provider)
        = ((normalize_ctt_response raw tn now').shipments,
          (normalize_ctt_response raw tn now').provider))
    ∧ (∀ raw (now now' : PyDateTime),
      (∀ p ∈ raw.parcels, ∀ ev ∈ p.events,
        (glsParseDatetime ev.eventDateTime).isSome = true) →
      ((normalize_gls_parcels_response raw now).shipments,
          (normalize_gls_parcels_response raw now).provider)
        = ((normalize_gls_parcels_response raw now').shipments,
          (normalize_gls_parcels_response raw now').provider))
    ∧ (∀ raw tn (now now' : PyDateTime),
      (∀ ds ∈ raw.shipments, ∀ ev ∈ ds.events,
        (parse_dt_iso (some (ev.timestamp.getD ""))).isSome = true) →
      ((normalize_dhl_response raw tn now).shipments,
          (normalize_dhl_response raw tn now).provider)
        = ((normalize_dhl_response raw tn now').shipments,
          (normalize_dhl_response raw tn now').provider)) := by
  refine ⟨?_, ?_, ?_⟩
  · intro raw tn now now' h
    cases hd : raw.data with
    | none => simp [normalize_ctt_response, hd]
    | some d =>
      rw [hd] at h
      simp only [Option.map_some', Option.getD_some] at h
      have hm : d.events.map (cttEventOf now) = d.events.map (cttEventOf now') :=
        List.map_congr_left (fun ev hev => cttEventOf_congr ev now now' (h ev hev))
      simp only [normalize_ctt_response, hd, hm]
  · intro raw now now' h
    have hm : raw.parcels.filterMap (glsShipmentOf now)
        = raw.parcels.filterMap (glsShipmentOf now') :=
      List.filterMap_congr (fun p hp => glsShipmentOf_congr p now now' (h p hp))
    simp only [normalize_gls_parcels_response, hm]
  · intro raw tn now now' h
    cases hd : raw.shipments with
    | nil => simp [normalize_dhl_response, hd]
    | cons ds rest =>
      have hds : ds ∈ raw.shipments := by rw [hd]; exact List.mem_cons_self ds rest
      have hm : ds.events.map (dhlEventOf now) = ds.events.map (dhlEventOf now') :=
        List.map_congr_left (fun ev hev => dhlEventOf_congr ev now now' (h ds hds ev hev))
      simp only [normalize_dhl_response, hd, hm]

/-- Wall-clock instants of two successive runs. -/
def nowRunA : PyDateTime := ⟨2025, 9, 20, 12, 0, 0, none⟩

def nowRunB : PyDateTime := ⟨2025, 9, 20, 12, 0, 7, none⟩

/-- CTT payload with one event whose datetime does not parse. -/
def cttBadDateRaw : CttRaw :=
  { data := some { events := [
      { event_date := some "garbage", description := some "En tránsito" }] } }

/-- C9 (counterexample): on a payload with an unparseable event datetime, two
runs of `normalize_ctt_response` at different wall clocks differ in the event
timestamps — a component other than `query_timestamp` — so normalization is
not idempotent up to `query_timestamp` as claimed. -/
theorem c9_counterexample :
    (normalize_ctt_response cttBadDateRaw "T" nowRunA).shipments.map
        (fun s => s.events.map (fun e => dtKey e.timestamp))
      ≠ (normalize_ctt_response cttBadDateRaw "T" nowRunB).shipments.map
        (fun s => s.events.map (fun e => dtKey e.timestamp)) := by
  decide

/-- Witness for C9: the three purity statements applied at concrete payloads
whose datetimes all parse. -/
theorem c9_normalize_pure_amended_witness :
    ((normalize_ctt_response cttC7Raw "T" nowRunA).shipments,
        (normalize_ctt_response cttC7Raw "T" nowRunA).provider)
      = ((normalize_ctt_response cttC7Raw "T" nowRunB).shipments,
        (normalize_ctt_response cttC7Raw "T" nowRunB).provider)
    ∧ ((normalize_gls_parcels_response glsDeliveredRaw nowRunA).shipments,
        (normalize_gls_parcels_response glsDeliveredRaw nowRunA).provider)
      = ((normalize_gls_parcels_response glsDeliveredRaw nowRunB).shipments,
        (normalize_gls_parcels_response glsDeliveredRaw nowRunB).provider)
    ∧ ((normalize_dhl_response { shipments := [] } "T" nowRunA).shipments,
        (normalize_dhl_response { shipments := [] } "T" nowRunA).provider)
      = ((normalize_dhl_response { shipments := [] } "T" nowRunB).shipments,
        (normalize_dhl_response { shipments := [] } "T" nowRunB).provider) :=
  ⟨c9_normalize_pure_amended.1 cttC7Raw "T" nowRunA nowRunB (by decide),
    c9_normalize_pure_amended.2.1 glsDeliveredRaw nowRunA nowRunB (by decide),
    c9_normalize_pure_amended.2.2 { shipments := [] } "T" nowRunA nowRunB (by decide)⟩

/-! ### C2 -/

theorem containsS_statusText (n : Nat) :
    containsS ("HTTP " ++ toString n ++ " while fetching") (toString n) = true :=
  containsS_append_left _ " while fetching" _
    (containsS_append_right "HTTP " _ _ (containsS_self (toString n)))

theorem statusText_ne_empty (n : Nat) :
    ("HTTP " ++ toString n ++ " while fetching") ≠ "" := by
  intro he
  have hl := congrArg String.data he
  simp [String.data_append] at hl

theorem fallback_details_contains (carrier code : String) (now : PyDateTime)
    (n : Nat) (hdr : Option String) (b : RespBody) (text : String)
    (url : Option String) (msg m : String)
    (hj : containsS (pyLower (hdr.getD "")) "json" = true)
    (hm : b.message = some m) (hmne : m ≠ "") :
    (fallbackResponse carrier code (.httpStatusError n hdr (some b) text url msg)
        now).shipments.map
      (fun s => s.events.map (fun e => e.details.map (fun d => containsS d m)))
      = [[some true]] := by
  have hped : pyOrO b.message (pyOrO b.error_description
      (pyOrO b.description (pyTruthy b.detail))) = some m := by
    rw [hm]
    simp [pyOrO, pyTruthy, hmne]
  unfold fallbackResponse
  simp only [hj, if_true, hped]
  set parts : List String :=
    (match url with | some u => ["URL: " ++ u] | none => [])
      ++ (match pyTruthy (if pyStrip (pyOrD b.code (pyOrD b.error_code (pyOrD b.error ""))) = ""
            then none
            else some (pyStrip (pyOrD b.code (pyOrD b.error_code (pyOrD b.error ""))))) with
          | some c => ["Provider error code: " ++ c] | none => [])
      ++ (match pyTruthy (some m) with
          | some d => ["Provider error: " ++ d] | none => [])
      ++ (match pyTruthy none, some m with
          | some s, none => ["Body: " ++ s] | _, _ => []) with hparts
  have hmem : ("Provider error: " ++ m) ∈ parts := by
    rw [hparts]
    have hpm : pyTruthy (some m) = some m := by simp [pyTruthy, hmne]
    rw [hpm]
    simp [List.mem_append]
  have hne : parts.isEmpty = false := by
    cases hp : parts with
    | nil => rw [hp] at hmem; cases hmem
    | cons _ _ => rfl
  have hcont : containsS (pyJoin " | " parts) m = true :=
    containsS_trans m ("Provider error: " ++ m) _
      (containsS_append_right _ _ _ (containsS_self m))
      (containsS_pyJoin_of_mem _ _ _ hmem)
  simp [hne, hcont]

/-- C2: when the adapter raises an HTTP status error and strict mode is off,
`cmd_track` returns the fallback `TrackingResponse` — exactly one shipment in
`unknown` status whose single diagnostic event has the non-empty status text
`HTTP <code> while fetching` (containing the status code) — together with
exit code 1 (non-zero); the provider error description extracted from a JSON
body appears in the event's details; with strict mode on, the original
exception propagates. -/
theorem c2_fallback_and_strict :
    ∀ (carrier code : String) (now : PyDateTime) (n : Nat) (hdr : Option String)
      (body : Option RespBody) (text : String) (url : Option String) (msg : String),
      cmdTrack false (.error (.httpStatusError n hdr body text url msg))
          carrier code now
        = .ok (fallbackResponse carrier code
            (.httpStatusError n hdr body text url msg) now, 1)
      ∧ (1 : Nat) ≠ 0
      ∧ cmdTrack true (.error (.httpStatusError n hdr body text url msg))
          carrier code now
        = .error (.httpStatusError n hdr body text url msg)
      ∧ (fallbackResponse carrier code (.httpStatusError n hdr body text url msg)
            now).shipments.map
          (fun s => (s.status, s.events.map
            (fun e => (e.status, containsS e.status (toString n)))))
        = [(ShipmentStatus.unknown,
            [("HTTP " ++ toString n ++ " while fetching", true)])]
      ∧ ("HTTP " ++ toString n ++ " while fetching") ≠ ""
      ∧ (∀ b m, containsS (pyLower (hdr.getD "")) "json" = true → body = some b →
          b.message = some m → m ≠ "" →
          (fallbackResponse carrier code
              (.httpStatusError n hdr body text url msg) now).shipments.map
            (fun s => s.events.map (fun e => e.details.map (fun d => containsS d m)))
          = [[some true]])
      ∧ (fallbackResponse carrier code (.httpError url msg) now).shipments.map
          (fun s => (s.status, s.events.map (fun e => e.status)))
        = [(ShipmentStatus.unknown, ["HTTP error during tracking"])] := by
  intro carrier code now n hdr body text url msg
  refine ⟨rfl, by decide, rfl, ?_, statusText_ne_empty n, ?_, rfl⟩
  · unfold fallbackResponse
    simp [containsS_statusText n]
  · intro b m hj hb hm hmne
    subst hb
    exact fallback_details_contains carrier code now n hdr b text url msg m hj hm hmne

/-- Witness for C2: the fallback facts at a concrete 404 with a JSON error
body. -/
theorem c2_fallback_and_strict_witness :
    (fallbackResponse "correos" "PK1"
        (.httpStatusError 404 (some "application/json")
          (some { message := some "Not found", dumpsStr := "json-dump" })
          "" (some "https://api1.correos.es/x") "Client error 404")
        nowRef).shipments.map
      (fun s => s.events.map (fun e => e.details.map
        (fun d => containsS d "Not found")))
      = [[some true]] :=
  (c2_fallback_and_strict "correos" "PK1" nowRef 404 (some "application/json")
      (some { message := some "Not found", dumpsStr := "json-dump" })
      "" (some "https://api1.correos.es/x") "Client error 404").2.2.2.2.2.1
    { message := some "Not found", dumpsStr := "json-dump" } "Not found"
    (by decide) rfl rfl (by decide)
